import Mathlib

/-!
# gen-resume: a shallow embedding of `main.go`

The program reads a JSON resume, renders it through an HTML template and asks a
headless browser to print the result to PDF.  Everything the program does is a
sequence of calls into the Go standard library and into chromedp.  The embedding
keeps the control flow of `main`, `generateResume` and `htmlToPDF` as written and
threads an explicit `World` (file system, standard streams, log of library calls)
through it.  Library calls whose outcome the program cannot determine are read
from an `Env` record of oracles; their effect on the file system is fixed by the
model.
-/

namespace GenResume

/-! ## Go error values -/

/-- Go `error` values as the program sees them.  `wrapped ctx cause` is the value
built by `fmt.Errorf(ctx + ": %w", cause)`; `pathError` is `*fs.PathError`;
`unmarshalType` is `*json.UnmarshalTypeError`; `external` is any other error
produced by a library or by the operating system. -/
inductive GoError where
  | external (msg : String)
  | pathError (op : String) (path : String) (msg : String)
  | unmarshalType (value : String) (goType : String) (struct : String) (field : String)
  | wrapped (ctx : String) (cause : GoError)
  deriving DecidableEq, Repr

/-- The method `Error()` of an error value. -/
def GoError.Error : GoError → String
  | .external msg => msg
  | .pathError op path msg => op ++ " " ++ path ++ ": " ++ msg
  | .unmarshalType value goType struct field =>
    if struct ≠ "" ∨ field ≠ "" then
      "json: cannot unmarshal " ++ value ++ " into Go struct field " ++ struct ++ "." ++ field
        ++ " of type " ++ goType
    else
      "json: cannot unmarshal " ++ value ++ " into Go value of type " ++ goType
  | .wrapped ctx cause => ctx ++ ": " ++ cause.Error

/-- The method `Unwrap()` as seen through `errors.Unwrap`: the cause of a wrapped
error, the underlying error of a path error. -/
def GoError.Unwrap : GoError → Option GoError
  | .wrapped _ cause => some cause
  | .pathError _ _ msg => some (.external msg)
  | _ => none

/-- The call `fmt.Errorf(ctx + ": %w", err)`. -/
def Errorf (ctx : String) (err : GoError) : GoError := .wrapped ctx err

/-! ## The resume record (`main.go`, lines 20 to 84) -/

/-- A Go slice value: the nil slice (the zero value of every slice type), or a
backing array with a length.  `cells` are the cells of the backing array, as
many as the capacity of the slice, and the elements of the slice are the first
`len` cells. -/
inductive Slice (α : Type) where
  | nil
  | mk (cells : List α) (len : Nat)
  deriving DecidableEq, Repr

/-- The cells of the backing array; their number is `cap(s)`. -/
def Slice.cells {α : Type} : Slice α → List α
  | .nil => []
  | .mk cells _ => cells

/-- The length `len(s)`. -/
def Slice.len {α : Type} : Slice α → Nat
  | .nil => 0
  | .mk _ len => len

/-- The elements of a slice, as `range` sees them. -/
def Slice.toList {α : Type} (s : Slice α) : List α := s.cells.take s.len

structure Experience where
  Title : String
  Company : String
  StartDate : String
  EndDate : String
  Responsibilities : Slice String
  deriving DecidableEq, Repr

structure SkillCategory where
  Category : String
  Items : Slice String
  deriving DecidableEq, Repr

structure Education where
  Degree : String
  School : String
  StartDate : String
  EndDate : String
  Description : String
  deriving DecidableEq, Repr

structure Project where
  Name : String
  URL : String
  Date : String
  Description : String
  Highlights : Slice String
  deriving DecidableEq, Repr

structure Certification where
  Name : String
  Issuer : String
  Date : String
  deriving DecidableEq, Repr

structure Language where
  Name : String
  Proficiency : String
  deriving DecidableEq, Repr

structure Resume where
  Name : String
  Title : String
  Email : String
  Phone : String
  Location : String
  LinkedIn : String
  GitHub : String
  Website : String
  Summary : String
  Experience : Slice Experience
  TechnicalSkills : Slice SkillCategory
  SoftSkills : Slice SkillCategory
  Education : Slice Education
  Projects : Slice Project
  Certifications : Slice Certification
  Languages : Slice Language
  deriving DecidableEq, Repr

def Experience.zero : Experience :=
  { Title := "", Company := "", StartDate := "", EndDate := "", Responsibilities := Slice.nil }

def SkillCategory.zero : SkillCategory := { Category := "", Items := Slice.nil }

def Education.zero : Education :=
  { Degree := "", School := "", StartDate := "", EndDate := "", Description := "" }

def Project.zero : Project :=
  { Name := "", URL := "", Date := "", Description := "", Highlights := Slice.nil }

def Certification.zero : Certification := { Name := "", Issuer := "", Date := "" }

def Language.zero : Language := { Name := "", Proficiency := "" }

/-- The value of `var resume Resume` (line 137). -/
def Resume.zero : Resume :=
  { Name := "", Title := "", Email := "", Phone := "", Location := "", LinkedIn := "",
    GitHub := "", Website := "", Summary := "",
    Experience := Slice.nil, TechnicalSkills := Slice.nil, SoftSkills := Slice.nil,
    Education := Slice.nil, Projects := Slice.nil, Certifications := Slice.nil,
    Languages := Slice.nil }

/-- The `json:"..."` tags of `Resume`, in declaration order. -/
def Resume.keys : List String :=
  ["name", "title", "email", "phone", "location", "linkedin", "github", "website", "summary",
   "experience", "technicalSkills", "softSkills", "education", "projects", "certifications",
   "languages"]

def Experience.keys : List String :=
  ["title", "company", "startDate", "endDate", "responsibilities"]

def SkillCategory.keys : List String := ["category", "items"]

def Education.keys : List String := ["degree", "school", "startDate", "endDate", "description"]

def Project.keys : List String := ["name", "url", "date", "description", "highlights"]

def Certification.keys : List String := ["name", "issuer", "date"]

def Language.keys : List String := ["name", "proficiency"]

/-! ## `json.Unmarshal` into the record

`encoding/json` first checks the whole input for syntax (an oracle of `Env`
below, which hands back the value tree) and then stores the value into the
destination, directed by the destination type.  The second half depends on the
struct tags of `main.go` and is written out here after the package
documentation and `decode.go`. -/

/-- A syntactically valid JSON text, as a tree.  Object members keep their order
and their duplicates. -/
inductive JSON where
  | null
  | bool (b : Bool)
  | number (lit : String)
  | string (s : String)
  | array (items : List JSON)
  | object (members : List (String × JSON))

/-- Case folding of one character of a key: ASCII letters, and the two
non-ASCII characters that fold to ASCII letters (Kelvin sign, long s). -/
def foldRune (c : Char) : Char :=
  if 65 ≤ c.toNat ∧ c.toNat ≤ 90 then Char.ofNat (c.toNat + 32)
  else if c.toNat = 0x212A then 'k'
  else if c.toNat = 0x17F then 's'
  else c

/-- Folded form of a key: two keys are equal under `bytes.EqualFold` exactly
when their folded forms are equal. -/
def foldName (s : String) : List Char := s.data.map foldRune

/-- Index of the first name satisfying `p`, counting from `i`. -/
def findName (p : String → Bool) : List String → Nat → Option Nat
  | [], _ => none
  | n :: ns, i => if p n then some i else findName p ns (i + 1)

/-- The struct field an object key is stored into: the field whose tag equals the
key, otherwise the first field whose tag equals it ignoring case, otherwise none
(the member is skipped). -/
def fieldIndex (names : List String) (key : String) : Option Nat :=
  match findName (fun n => n == key) names 0 with
  | some i => some i
  | none => findName (fun n => foldName n == foldName key) names 0

/-- The decoder keeps the first error it meets and goes on (`d.saveError`). -/
def saveError (saved : Option GoError) (err : Option GoError) : Option GoError :=
  match saved with
  | some e => some e
  | none => err

/-- The kind of a JSON value as `UnmarshalTypeError.Value` names it. -/
def JSON.kindName : JSON → String
  | .null => "null"
  | .bool _ => "bool"
  | .number _ => "number"
  | .string _ => "string"
  | .array _ => "array"
  | .object _ => "object"

/-- Store a JSON value into a Go `string`: a string literal is stored, `null`
leaves the destination as it is, anything else is a type error. -/
def storeString (struct : String) (stack : List String) (v : JSON) (cur : String) :
    String × Option GoError :=
  match v with
  | .null => (cur, none)
  | .string s => (s, none)
  | other => (cur, some (.unmarshalType other.kindName "string" struct (".".intercalate stack)))

/-- The backing array after the decoder has grown a full one: the old cells,
then zero cells up to the new capacity.  `grow` is the capacity the Go version
at hand chooses for a full array of the given capacity; the new capacity is at
least one more than the old one. -/
def growCells {α : Type} (grow : Nat → Nat) (zero : α) (cells : List α) : List α :=
  cells ++ List.replicate (max (grow cells.length) (cells.length + 1) - cells.length) zero

/-- Decode the items of a JSON array into the cells of a backing array, item `i`
into cell `i`, which keeps what it held; when the array is full it is grown
first. -/
def decodeElems {α : Type} (grow : Nat → Nat) (elem : JSON → α → α × Option GoError)
    (zero : α) : List JSON → Nat → List α → List α × Option GoError
  | [], _, cells => (cells, none)
  | item :: items, i, cells =>
    let cells := if i < cells.length then cells else growCells grow zero cells
    let r := elem item (cells.getD i zero)
    let rs := decodeElems grow elem zero items (i + 1) (cells.set i r.1)
    (rs.1, saveError r.2 rs.2)

/-- Store a JSON value into a Go slice: an array is decoded item by item into the
backing array of the slice, grown as needed, and the length is set to the number
of items; an empty array gives a new empty slice of capacity 0, which is not
nil; `null` gives the nil slice; anything else is a type error.  `grow` gives,
by Go type and capacity, the capacity a full backing array is grown to. -/
def storeSlice {α : Type} (grow : String → Nat → Nat) (elem : JSON → α → α × Option GoError)
    (zero : α) (goType : String) (struct : String) (stack : List String) (v : JSON)
    (cur : Slice α) : Slice α × Option GoError :=
  match v with
  | .null => (Slice.nil, none)
  | .array [] => (Slice.mk [] 0, none)
  | .array items =>
    let r := decodeElems (grow goType) elem zero items 0 cur.cells
    (Slice.mk r.1 items.length, r.2)
  | other => (cur, some (.unmarshalType other.kindName goType struct (".".intercalate stack)))

/-- Store the members of a JSON object into a struct, member by member in input
order; `set i v` stores `v` into field `i`.  Members whose key selects no field
are skipped. -/
def decodeMembers {α : Type} (names : List String) (set : Nat → JSON → α → α × Option GoError) :
    List (String × JSON) → α → Option GoError → α × Option GoError
  | [], r, saved => (r, saved)
  | (key, v) :: ms, r, saved =>
    match fieldIndex names key with
    | none => decodeMembers names set ms r saved
    | some i =>
      let s := set i v r
      decodeMembers names set ms s.1 (saveError saved s.2)

/-- Store a JSON value into a Go struct: an object is stored member by member,
`null` leaves the destination as it is, anything else is a type error. -/
def storeStruct {α : Type} (names : List String) (set : Nat → JSON → α → α × Option GoError)
    (goType : String) (struct : String) (stack : List String) (v : JSON) (cur : α) :
    α × Option GoError :=
  match v with
  | .null => (cur, none)
  | .object ms => decodeMembers names set ms cur none
  | other => (cur, some (.unmarshalType other.kindName goType struct (".".intercalate stack)))

/-- Store into a `[]string` field. -/
def storeStrings (grow : String → Nat → Nat) (struct : String) (stack : List String)
    (v : JSON) (cur : Slice String) : Slice String × Option GoError :=
  storeSlice grow (storeString struct stack) "" "[]string" struct stack v cur

def Experience.setField (grow : String → Nat → Nat) (stack : List String) (i : Nat) (v : JSON)
    (r : Experience) :
    Experience × Option GoError :=
  match i with
  | 0 => let x := storeString "Experience" (stack ++ ["title"]) v r.Title
         ({ r with Title := x.1 }, x.2)
  | 1 => let x := storeString "Experience" (stack ++ ["company"]) v r.Company
         ({ r with Company := x.1 }, x.2)
  | 2 => let x := storeString "Experience" (stack ++ ["startDate"]) v r.StartDate
         ({ r with StartDate := x.1 }, x.2)
  | 3 => let x := storeString "Experience" (stack ++ ["endDate"]) v r.EndDate
         ({ r with EndDate := x.1 }, x.2)
  | 4 => let x := storeStrings grow "Experience" (stack ++ ["responsibilities"]) v r.Responsibilities
         ({ r with Responsibilities := x.1 }, x.2)
  | _ => (r, none)

def SkillCategory.setField (grow : String → Nat → Nat) (stack : List String) (i : Nat) (v : JSON)
    (r : SkillCategory) :
    SkillCategory × Option GoError :=
  match i with
  | 0 => let x := storeString "SkillCategory" (stack ++ ["category"]) v r.Category
         ({ r with Category := x.1 }, x.2)
  | 1 => let x := storeStrings grow "SkillCategory" (stack ++ ["items"]) v r.Items
         ({ r with Items := x.1 }, x.2)
  | _ => (r, none)

def Education.setField (_grow : String → Nat → Nat) (stack : List String) (i : Nat) (v : JSON)
    (r : Education) :
    Education × Option GoError :=
  match i with
  | 0 => let x := storeString "Education" (stack ++ ["degree"]) v r.Degree
         ({ r with Degree := x.1 }, x.2)
  | 1 => let x := storeString "Education" (stack ++ ["school"]) v r.School
         ({ r with School := x.1 }, x.2)
  | 2 => let x := storeString "Education" (stack ++ ["startDate"]) v r.StartDate
         ({ r with StartDate := x.1 }, x.2)
  | 3 => let x := storeString "Education" (stack ++ ["endDate"]) v r.EndDate
         ({ r with EndDate := x.1 }, x.2)
  | 4 => let x := storeString "Education" (stack ++ ["description"]) v r.Description
         ({ r with Description := x.1 }, x.2)
  | _ => (r, none)

def Project.setField (grow : String → Nat → Nat) (stack : List String) (i : Nat) (v : JSON)
    (r : Project) :
    Project × Option GoError :=
  match i with
  | 0 => let x := storeString "Project" (stack ++ ["name"]) v r.Name
         ({ r with Name := x.1 }, x.2)
  | 1 => let x := storeString "Project" (stack ++ ["url"]) v r.URL
         ({ r with URL := x.1 }, x.2)
  | 2 => let x := storeString "Project" (stack ++ ["date"]) v r.Date
         ({ r with Date := x.1 }, x.2)
  | 3 => let x := storeString "Project" (stack ++ ["description"]) v r.Description
         ({ r with Description := x.1 }, x.2)
  | 4 => let x := storeStrings grow "Project" (stack ++ ["highlights"]) v r.Highlights
         ({ r with Highlights := x.1 }, x.2)
  | _ => (r, none)

def Certification.setField (_grow : String → Nat → Nat) (stack : List String) (i : Nat) (v : JSON)
    (r : Certification) :
    Certification × Option GoError :=
  match i with
  | 0 => let x := storeString "Certification" (stack ++ ["name"]) v r.Name
         ({ r with Name := x.1 }, x.2)
  | 1 => let x := storeString "Certification" (stack ++ ["issuer"]) v r.Issuer
         ({ r with Issuer := x.1 }, x.2)
  | 2 => let x := storeString "Certification" (stack ++ ["date"]) v r.Date
         ({ r with Date := x.1 }, x.2)
  | _ => (r, none)

def Language.setField (_grow : String → Nat → Nat) (stack : List String) (i : Nat) (v : JSON)
    (r : Language) :
    Language × Option GoError :=
  match i with
  | 0 => let x := storeString "Language" (stack ++ ["name"]) v r.Name
         ({ r with Name := x.1 }, x.2)
  | 1 => let x := storeString "Language" (stack ++ ["proficiency"]) v r.Proficiency
         ({ r with Proficiency := x.1 }, x.2)
  | _ => (r, none)

/-- Store into a field of type `[]T` for a struct type `T` of `main.go`; type
errors inside an element are reported against the enclosing struct `struct`. -/
def storeStructs {α : Type} (grow : String → Nat → Nat) (names : List String)
    (set : List String → Nat → JSON → α → α × Option GoError) (zero : α) (typeName : String)
    (struct : String) (stack : List String) (v : JSON) (cur : Slice α) :
    Slice α × Option GoError :=
  storeSlice grow (storeStruct names (set stack) ("main." ++ typeName) struct stack) zero
    ("[]main." ++ typeName) struct stack v cur

def Resume.setField (grow : String → Nat → Nat) (i : Nat) (v : JSON) (r : Resume) :
    Resume × Option GoError :=
  match i with
  | 0 => let x := storeString "Resume" ["name"] v r.Name
         ({ r with Name := x.1 }, x.2)
  | 1 => let x := storeString "Resume" ["title"] v r.Title
         ({ r with Title := x.1 }, x.2)
  | 2 => let x := storeString "Resume" ["email"] v r.Email
         ({ r with Email := x.1 }, x.2)
  | 3 => let x := storeString "Resume" ["phone"] v r.Phone
         ({ r with Phone := x.1 }, x.2)
  | 4 => let x := storeString "Resume" ["location"] v r.Location
         ({ r with Location := x.1 }, x.2)
  | 5 => let x := storeString "Resume" ["linkedin"] v r.LinkedIn
         ({ r with LinkedIn := x.1 }, x.2)
  | 6 => let x := storeString "Resume" ["github"] v r.GitHub
         ({ r with GitHub := x.1 }, x.2)
  | 7 => let x := storeString "Resume" ["website"] v r.Website
         ({ r with Website := x.1 }, x.2)
  | 8 => let x := storeString "Resume" ["summary"] v r.Summary
         ({ r with Summary := x.1 }, x.2)
  | 9 => let x := storeStructs grow Experience.keys (Experience.setField grow) Experience.zero "Experience"
           "Resume" ["experience"] v r.Experience
         ({ r with Experience := x.1 }, x.2)
  | 10 => let x := storeStructs grow SkillCategory.keys (SkillCategory.setField grow) SkillCategory.zero
            "SkillCategory" "Resume" ["technicalSkills"] v r.TechnicalSkills
          ({ r with TechnicalSkills := x.1 }, x.2)
  | 11 => let x := storeStructs grow SkillCategory.keys (SkillCategory.setField grow) SkillCategory.zero
            "SkillCategory" "Resume" ["softSkills"] v r.SoftSkills
          ({ r with SoftSkills := x.1 }, x.2)
  | 12 => let x := storeStructs grow Education.keys (Education.setField grow) Education.zero "Education"
            "Resume" ["education"] v r.Education
          ({ r with Education := x.1 }, x.2)
  | 13 => let x := storeStructs grow Project.keys (Project.setField grow) Project.zero "Project"
            "Resume" ["projects"] v r.Projects
          ({ r with Projects := x.1 }, x.2)
  | 14 => let x := storeStructs grow Certification.keys (Certification.setField grow) Certification.zero
            "Certification" "Resume" ["certifications"] v r.Certifications
          ({ r with Certifications := x.1 }, x.2)
  | 15 => let x := storeStructs grow Language.keys (Language.setField grow) Language.zero "Language"
            "Resume" ["languages"] v r.Languages
          ({ r with Languages := x.1 }, x.2)
  | _ => (r, none)

/-- The decoding half of `json.Unmarshal(jsonData, &resume)` on a valid JSON
text: the record after the call and the error returned (none for nil). -/
def decodeResume (grow : String → Nat → Nat) (v : JSON) (resume : Resume) :
    Resume × Option GoError :=
  storeStruct Resume.keys (Resume.setField grow) "main.Resume" "" [] v resume

/-! ## The world the program runs in -/

/-- The file system: contents of the regular files, the set of directories, and
the files the program holds open, all by path.  Paths are compared as written. -/
structure FS where
  files : String → Option String
  dirs : String → Bool
  opened : String → Bool

/-- The file system with the regular file `path` holding `content`. -/
def FS.write (fs : FS) (path : String) (content : String) : FS :=
  { fs with files := fun p => if p = path then some content else fs.files p }

/-- The file system without the regular file `path`. -/
def FS.remove (fs : FS) (path : String) : FS :=
  { fs with files := fun p => if p = path then none else fs.files p }

/-- The file system with the file `path` held open, or no longer held open. -/
def FS.setOpened (fs : FS) (path : String) (b : Bool) : FS :=
  { fs with opened := fun p => if p = path then b else fs.opened p }

/-- The file system with the directories `ds` added. -/
def FS.addDirs (fs : FS) (ds : List String) : FS :=
  { fs with dirs := fun p => decide (p ∈ ds) || fs.dirs p }

/-- A decimal constant of type `float64` as written in the source:
`mantissa / 10 ^ decimals`. -/
structure Decimal where
  mantissa : Nat
  decimals : Nat
  deriving DecidableEq, Repr

/-- The record `page.PrintToPDFParams` of cdproto; a field at its zero value is a
parameter that is not set. -/
structure PrintToPDFParams where
  Landscape : Bool
  DisplayHeaderFooter : Bool
  PrintBackground : Bool
  Scale : Decimal
  PaperWidth : Decimal
  PaperHeight : Decimal
  MarginTop : Decimal
  MarginBottom : Decimal
  MarginLeft : Decimal
  MarginRight : Decimal
  PageRanges : String
  HeaderTemplate : String
  FooterTemplate : String
  PreferCSSPageSize : Bool
  TransferMode : String
  GenerateTaggedPDF : Bool
  GenerateDocumentOutline : Bool
  deriving DecidableEq, Repr

/-- The call `page.PrintToPDF()`: every parameter at its zero value. -/
def PrintToPDF : PrintToPDFParams :=
  { Landscape := false, DisplayHeaderFooter := false, PrintBackground := false,
    Scale := ⟨0, 0⟩, PaperWidth := ⟨0, 0⟩, PaperHeight := ⟨0, 0⟩,
    MarginTop := ⟨0, 0⟩, MarginBottom := ⟨0, 0⟩, MarginLeft := ⟨0, 0⟩, MarginRight := ⟨0, 0⟩,
    PageRanges := "", HeaderTemplate := "", FooterTemplate := "",
    PreferCSSPageSize := false, TransferMode := "",
    GenerateTaggedPDF := false, GenerateDocumentOutline := false }

def PrintToPDFParams.WithPrintBackground (p : PrintToPDFParams) (b : Bool) : PrintToPDFParams :=
  { p with PrintBackground := b }

def PrintToPDFParams.WithPaperWidth (p : PrintToPDFParams) (x : Decimal) : PrintToPDFParams :=
  { p with PaperWidth := x }

def PrintToPDFParams.WithPaperHeight (p : PrintToPDFParams) (x : Decimal) : PrintToPDFParams :=
  { p with PaperHeight := x }

def PrintToPDFParams.WithMarginTop (p : PrintToPDFParams) (x : Decimal) : PrintToPDFParams :=
  { p with MarginTop := x }

def PrintToPDFParams.WithMarginBottom (p : PrintToPDFParams) (x : Decimal) : PrintToPDFParams :=
  { p with MarginBottom := x }

def PrintToPDFParams.WithMarginLeft (p : PrintToPDFParams) (x : Decimal) : PrintToPDFParams :=
  { p with MarginLeft := x }

def PrintToPDFParams.WithMarginRight (p : PrintToPDFParams) (x : Decimal) : PrintToPDFParams :=
  { p with MarginRight := x }

def PrintToPDFParams.WithPreferCSSPageSize (p : PrintToPDFParams) (b : Bool) : PrintToPDFParams :=
  { p with PreferCSSPageSize := b }

/-- An option of the chromedp exec allocator: one of the package defaults, or a
command-line flag of the browser with a boolean value. -/
inductive AllocatorOption where
  | default (descr : String)
  | flag (name : String) (value : Bool)
  deriving DecidableEq, Repr

/-- A library call made by the program, with its arguments and, where the
program uses it, the value it returned; for `os.Remove`, whose result the
program discards, the discarded result. -/
inductive Call where
  | readFile (path : String)
  | unmarshal (data : String)
  | templateParse (name : String) (text : String)
  | templateExecute (text : String) (data : Resume)
  | mkdirAll (dir : String) (perm : Nat)
  | tempFile (dir : String) (pattern : String) (name : String)
  | fileWrite (name : String) (data : String)
  | fileClose (name : String)
  | browserStart (timeoutSeconds : Nat) (opts : List AllocatorOption)
  | navigate (url : String)
  | waitReady (sel : String)
  | printToPDF (params : PrintToPDFParams) (buf : String)
  | writeFile (path : String) (data : String) (perm : Nat)
  | cancel (ctx : String)
  | remove (name : String) (result : Option GoError)
  deriving DecidableEq, Repr

/-- One entry of the call log: the source line of the call, the call, and the
error it returned (none for nil, and for calls whose result is discarded). -/
structure Event where
  site : Nat
  call : Call
  err : Option GoError
  deriving DecidableEq, Repr

/-- Everything a run can change or show. -/
structure World where
  fs : FS
  stdout : List String
  stderr : List String
  log : List Event

def World.record (w : World) (site : Nat) (call : Call) (err : Option GoError) : World :=
  { w with log := w.log ++ [{ site := site, call := call, err := err }] }

/-- The values of the four flags after `flag.Parse()`. -/
structure Flags where
  jsonPath : String
  templatePath : String
  outputPath : String
  help : Bool
  deriving DecidableEq, Repr

/-- What `flag.Parse()` does with a command line under `flag.ExitOnError`: it
returns with the flag values set, or it meets an undefined `-h` (usage, exit 0),
or it rejects the command line (message, usage, exit 2). -/
inductive FlagParse where
  | parsed (f : Flags)
  | helpRequested
  | failed (msg : String)

/-- The behaviour of everything outside `main.go`: operating system, standard
library and browser. -/
structure Env where
  /-- When opening or reading a file fails for a reason other than its absence:
  the operation and the errno text. -/
  readFault : FS → String → Option (String × String)
  /-- The function `filepath.Dir`. -/
  filepathDir : String → String
  /-- The call `os.MkdirAll`: the directories it created, and its error. -/
  mkdirAll : FS → String → List String × Option GoError
  /-- The call `ioutil.TempFile`: the name it settles on, or its error. -/
  tempName : FS → String → String → Except GoError String
  /-- When `(*os.File).Write` fails: what reached the file, and the error. -/
  fileWrite : FS → String → String → Option (String × GoError)
  /-- When `ioutil.WriteFile` fails: the content of the file afterwards (none when
  the file was not even opened), and the error. -/
  writeFile : FS → String → String → Option (Option String × GoError)
  /-- The error of `os.Remove` on a file, if any (the file is held open and the
  system does not remove open files, the directory does not allow it, ...). -/
  remove : FS → String → Option GoError
  /-- The capacity `encoding/json` grows a full backing array to, by Go type and
  capacity. -/
  sliceCap : String → Nat → Nat
  /-- The syntax check of `encoding/json`: the value tree of a valid text, or the
  syntax error. -/
  checkValid : String → Except GoError JSON
  /-- The error of `(*template.Template).Parse` on a template text, if any. -/
  templateParse : String → Option GoError
  /-- The call `(*template.Template).Execute` for a parsed template text. -/
  templateExecute : String → Resume → Except GoError String
  /-- The options `chromedp.DefaultExecAllocatorOptions`. -/
  defaultExecAllocatorOptions : List AllocatorOption
  /-- Starting the browser on the first `chromedp.Run`. -/
  browserStart : FS → List AllocatorOption → Option GoError
  navigate : FS → String → Option GoError
  waitReady : FS → String → String → Option GoError
  /-- The command `Page.printToPDF` on the page loaded from a URL. -/
  printToPDF : FS → String → PrintToPDFParams → Except GoError String
  flagParse : List String → FlagParse
  /-- The text written by `flag.PrintDefaults()`. -/
  printDefaults : String
  /-- The date and time the `log` package puts before a message. -/
  logStamp : String

/-! ## Library calls on the world

Each call is given by its outcome, a function of the environment, the file
system and the arguments, and by the world it leaves: the call is logged with
its error and the file system is updated as the outcome says. -/

def errOf {α : Type} : Except GoError α → Option GoError
  | .error e => some e
  | .ok _ => none

/-- Outcome of `ioutil.ReadFile(path)`. -/
def readFileResult (env : Env) (fs : FS) (path : String) : Except GoError String :=
  match env.readFault fs path with
  | some (op, errno) => .error (.pathError op path errno)
  | none =>
    match fs.files path with
    | some content => .ok content
    | none =>
      if fs.dirs path then .error (.pathError "read" path "is a directory")
      else .error (.pathError "open" path "no such file or directory")

def ReadFile (env : Env) (site : Nat) (path : String) (w : World) :
    World × Except GoError String :=
  let r := readFileResult env w.fs path
  (w.record site (.readFile path) (errOf r), r)

/-- Outcome of `json.Unmarshal(data, &v)`: the record after the call and the
error. -/
def unmarshalResult (env : Env) (data : String) (v : Resume) : Resume × Option GoError :=
  match env.checkValid data with
  | .error err => (v, some err)
  | .ok tree => decodeResume env.sliceCap tree v

def Unmarshal (env : Env) (site : Nat) (data : String) (v : Resume) (w : World) :
    World × Resume × Option GoError :=
  let r := unmarshalResult env data v
  (w.record site (.unmarshal data) r.2, r.1, r.2)

def TemplateParse (env : Env) (site : Nat) (name : String) (text : String) (w : World) :
    World × Option GoError :=
  (w.record site (.templateParse name text) (env.templateParse text), env.templateParse text)

def TemplateExecute (env : Env) (site : Nat) (text : String) (data : Resume) (w : World) :
    World × Except GoError String :=
  let r := env.templateExecute text data
  (w.record site (.templateExecute text data) (errOf r), r)

/-- Outcome of `os.MkdirAll(dir, perm)`: the directories that exist afterwards
and were not there before, and the error.  A regular file in the place of `dir`
makes the call fail. -/
def mkdirAllResult (env : Env) (fs : FS) (dir : String) : List String × Option GoError :=
  if (fs.files dir).isSome then
    ([], some (.pathError "mkdir" dir "not a directory"))
  else
    match env.mkdirAll fs dir with
    | (created, some err) => (created, some err)
    | (created, none) => (dir :: created, none)

def MkdirAll (env : Env) (site : Nat) (dir : String) (perm : Nat) (w : World) :
    World × Option GoError :=
  let r := mkdirAllResult env w.fs dir
  ({ w.record site (.mkdirAll dir perm) r.2 with fs := w.fs.addDirs r.1 }, r.2)

/-- Outcome of `ioutil.TempFile(dir, pattern)`: the name of the new file.  The
file is created exclusively, so a name that is taken is never returned. -/
def tempFileResult (env : Env) (fs : FS) (dir : String) (pattern : String) :
    Except GoError String :=
  match env.tempName fs dir pattern with
  | .error err => .error err
  | .ok name =>
    if (fs.files name).isSome || fs.dirs name then
      .error (.pathError "createtemp" (dir ++ pattern) "file exists")
    else .ok name

/-- The file system after `ioutil.TempFile`: the new file exists, is empty and is
held open. -/
def FS.createTemp (fs : FS) : Except GoError String → FS
  | .ok name => (fs.write name "").setOpened name true
  | .error _ => fs

/-- The name of the file behind the `*os.File` returned by `ioutil.TempFile`. -/
def tempFileName : Except GoError String → String
  | .ok name => name
  | .error _ => ""

def TempFile (env : Env) (site : Nat) (dir : String) (pattern : String) (w : World) :
    World × Except GoError String :=
  let r := tempFileResult env w.fs dir pattern
  ({ w.record site (.tempFile dir pattern (tempFileName r)) (errOf r) with
      fs := w.fs.createTemp r }, r)

/-- What is in the file after `(*os.File).Write(data)` on a new file. -/
def writtenBy (data : String) : Option (String × GoError) → String
  | some (written, _) => written
  | none => data

def FileWrite (env : Env) (site : Nat) (name : String) (data : String) (w : World) :
    World × Option GoError :=
  let r := env.fileWrite w.fs name data
  ({ w.record site (.fileWrite name data) (r.map Prod.snd) with
      fs := w.fs.write name (writtenBy data r) }, r.map Prod.snd)

/-- The call `tmpFile.Close()`; its result is discarded. -/
def FileClose (site : Nat) (name : String) (w : World) : World :=
  { w.record site (.fileClose name) none with fs := w.fs.setOpened name false }

/-- The file system after `os.Remove(name)` with the given result: the file is
gone when the call returned nil, and stays otherwise. -/
def FS.removeWith (fs : FS) (name : String) : Option GoError → FS
  | none => fs.remove name
  | some _ => fs

/-- The call `os.Remove(name)` on a regular file; its result is discarded, so
the log entry carries no error. -/
def Remove (env : Env) (site : Nat) (name : String) (w : World) : World :=
  { w.record site (.remove name (env.remove w.fs name)) none with
      fs := w.fs.removeWith name (env.remove w.fs name) }

/-- Outcome of `ioutil.WriteFile(path, data, perm)`: none on success, otherwise
the content left in the file (none when it was not opened) and the error.  A
directory in the place of `path` makes the call fail. -/
def writeFileResult (env : Env) (fs : FS) (path : String) (data : String) :
    Option (Option String × GoError) :=
  if fs.dirs path then some (none, .pathError "open" path "is a directory")
  else env.writeFile fs path data

/-- The file system after `ioutil.WriteFile(path, data, perm)`. -/
def FS.writeFile (fs : FS) (path : String) (data : String) :
    Option (Option String × GoError) → FS
  | none => fs.write path data
  | some (some left, _) => fs.write path left
  | some (none, _) => fs

def WriteFile (env : Env) (site : Nat) (path : String) (data : String) (perm : Nat)
    (w : World) : World × Option GoError :=
  let r := writeFileResult env w.fs path data
  ({ w.record site (.writeFile path data perm) (r.map Prod.snd) with
      fs := w.fs.writeFile path data r }, r.map Prod.snd)

/-! ## `htmlToPDF` (lines 168 to 237) -/

/-- The parameters built at lines 212 to 220. -/
def printParams : PrintToPDFParams :=
  ((((((((PrintToPDF.WithPrintBackground true).WithPaperWidth ⟨827, 2⟩).WithPaperHeight
    ⟨1169, 2⟩).WithMarginTop ⟨0, 0⟩).WithMarginBottom ⟨0, 0⟩).WithMarginLeft
    ⟨0, 0⟩).WithMarginRight ⟨0, 0⟩).WithPreferCSSPageSize true)

/-- The allocator options built at lines 192 to 197. -/
def allocatorOptions (env : Env) : List AllocatorOption :=
  env.defaultExecAllocatorOptions ++
    [.flag "headless" true, .flag "disable-gpu" true, .flag "no-sandbox" true,
     .flag "disable-dev-shm-usage" true]

/-- The action function of lines 210 to 227: print with the fixed parameters and
keep the buffer.  The calls made, and the error or the buffer. -/
def printAction (env : Env) (fs : FS) (url : String) : List Event × Except GoError String :=
  match env.printToPDF fs url printParams with
  | .error err => ([{ site := 212, call := .printToPDF printParams "", err := some err }],
      .error err)
  | .ok buf => ([{ site := 212, call := .printToPDF printParams buf, err := none }], .ok buf)

/-- The calls made by `chromedp.Run` at lines 207 to 228 under the contexts of
lines 188 to 203 (deadline of 30 seconds, the allocator options), and its
outcome: the browser is started, then the three actions run in order, and the
first error ends the run.  On success the outcome is the value of `pdfBuf`. -/
def chromedpTrace (env : Env) (fs : FS) (tmpName : String) :
    List Event × Except GoError String :=
  match env.browserStart fs (allocatorOptions env) with
  | some err =>
    ([{ site := 207, call := .browserStart 30 (allocatorOptions env), err := some err }],
      .error err)
  | none =>
    match env.navigate fs ("file://" ++ tmpName) with
    | some err =>
      ([{ site := 207, call := .browserStart 30 (allocatorOptions env), err := none },
        { site := 208, call := .navigate ("file://" ++ tmpName), err := some err }], .error err)
    | none =>
      match env.waitReady fs ("file://" ++ tmpName) "body" with
      | some err =>
        ([{ site := 207, call := .browserStart 30 (allocatorOptions env), err := none },
          { site := 208, call := .navigate ("file://" ++ tmpName), err := none },
          { site := 209, call := .waitReady "body", err := some err }], .error err)
      | none =>
        let r := printAction env fs ("file://" ++ tmpName)
        ([{ site := 207, call := .browserStart 30 (allocatorOptions env), err := none },
          { site := 208, call := .navigate ("file://" ++ tmpName), err := none },
          { site := 209, call := .waitReady "body", err := none }] ++ r.1, r.2)

def chromedpRun (env : Env) (tmpName : String) (w : World) : World × Except GoError String :=
  let r := chromedpTrace env w.fs tmpName
  ({ w with log := w.log ++ r.1 }, r.2)

/-- Lines 205 to 237: generate the PDF and write it. -/
def htmlToPDF_generate (env : Env) (outputPath : String) (tmpName : String) (w : World) :
    World × Option GoError :=
  match chromedpRun env tmpName w with
  | (w, .error err) => (w, some (Errorf "failed to generate PDF" err))
  | (w, .ok pdfBuf) =>
    match WriteFile env 233 outputPath pdfBuf 0o644 w with
    | (w, some err) => (w, some (Errorf "failed to write PDF file" err))
    | (w, none) => (w, none)

/-- The deferred calls of lines 189, 200 and 203, run last in, first out. -/
def cancelContexts (w : World) : World :=
  ((w.record 203 (.cancel "taskCtx") none).record 200 (.cancel "allocCtx") none).record 189
    (.cancel "ctx") none

/-- Lines 182 to 237, the part of `htmlToPDF` that runs once the temporary file
exists. -/
def htmlToPDF_withTemp (env : Env) (html : String) (outputPath : String) (tmpName : String)
    (w : World) : World × Option GoError :=
  match FileWrite env 182 tmpName html w with
  | (w, some err) => (w, some (Errorf "failed to write HTML to temp file" err))
  | (w, none) =>
    let w := FileClose 185 tmpName w
    let r := htmlToPDF_generate env outputPath tmpName w
    (cancelContexts r.1, r.2)

def htmlToPDF (env : Env) (html : String) (outputPath : String) (w : World) :
    World × Option GoError :=
  let outputDir := env.filepathDir outputPath
  match MkdirAll env 171 outputDir 0o755 w with
  | (w, some err) => (w, some (Errorf "failed to create output directory" err))
  | (w, none) =>
    match TempFile env 176 "" "resume-*.html" w with
    | (w, .error err) => (w, some (Errorf "failed to create temp file" err))
    | (w, .ok tmpName) =>
      -- defer os.Remove(tmpFile.Name()): runs on every return below
      let r := htmlToPDF_withTemp env html outputPath tmpName w
      (Remove env 180 tmpName r.1, r.2)

/-! ## `generateResume` (lines 129 to 166) -/

def generateResume (env : Env) (jsonPath : String) (templatePath : String)
    (outputPath : String) (w : World) : World × Option GoError :=
  match ReadFile env 131 jsonPath w with
  | (w, .error err) => (w, some (Errorf "failed to read JSON file" err))
  | (w, .ok jsonData) =>
    match Unmarshal env 138 jsonData Resume.zero w with
    | (w, _, some err) => (w, some (Errorf "failed to parse JSON" err))
    | (w, resume, none) =>
      match ReadFile env 143 templatePath w with
      | (w, .error err) => (w, some (Errorf "failed to read template file" err))
      | (w, .ok templateData) =>
        match TemplateParse env 149 "resume" templateData w with
        | (w, some err) => (w, some (Errorf "failed to parse template" err))
        | (w, none) =>
          match TemplateExecute env 156 templateData resume w with
          | (w, .error err) => (w, some (Errorf "failed to execute template" err))
          | (w, .ok html) =>
            match htmlToPDF env html outputPath w with
            | (w, some err) => (w, some (Errorf "failed to convert HTML to PDF" err))
            | (w, none) => (w, none)

/-! ## `main` (lines 86 to 127) -/

/-- What the function assigned to `flag.Usage` writes to standard error. -/
def usage (env : Env) (arg0 : String) : List String :=
  ["Gen Resume - Generate professional PDF resumes from JSON data\n\n",
   "Usage:\n",
   "  " ++ arg0 ++ " -json <path> [-template <path>] [-output <path>]\n\n",
   "Options:\n",
   env.printDefaults,
   "\nExample:\n",
   "  " ++ arg0 ++ " -json resume.json -template template.html -output john_doe_resume.pdf\n"]

def World.eprint (w : World) (out : List String) : World :=
  { w with stderr := w.stderr ++ out }

def World.print (w : World) (out : List String) : World :=
  { w with stdout := w.stdout ++ out }

/-- The program on the command line `arg0 :: args`: the world it leaves and its
exit code. -/
def main (env : Env) (arg0 : String) (args : List String) (w : World) : World × Nat :=
  match env.flagParse args with
  | .failed msg => ((w.eprint [msg ++ "\n"]).eprint (usage env arg0), 2)
  | .helpRequested => (w.eprint (usage env arg0), 0)
  | .parsed f =>
    if f.help then
      (w.eprint (usage env arg0), 0)
    else if f.jsonPath = "" then
      ((w.eprint ["Error: JSON file path is required\n\n"]).eprint (usage env arg0), 1)
    else
      match generateResume env f.jsonPath f.templatePath f.outputPath w with
      | (w, some err) => (w.eprint [env.logStamp ++ err.Error ++ "\n"], 1)
      | (w, none) => (w.print ["✓ Resume generated successfully: " ++ f.outputPath ++ "\n"], 0)

/-! ## Vocabulary of the statements -/

/-- The calls a run has added to the log. -/
def newEvents (w : World) (w2 : World) : List Event := w2.log.drop w.log.length

/-- The successful calls that set up the temporary file (lines 171 to 185). -/
def setupEvents (dir : String) (tmp : String) (html : String) : List Event :=
  [⟨171, .mkdirAll dir 0o755, none⟩, ⟨176, .tempFile "" "resume-*.html" tmp, none⟩,
   ⟨182, .fileWrite tmp html, none⟩, ⟨185, .fileClose tmp, none⟩]

/-- The deferred cancel calls of lines 189, 200 and 203. -/
def cancelEvents : List Event :=
  [⟨203, .cancel "taskCtx", none⟩, ⟨200, .cancel "allocCtx", none⟩, ⟨189, .cancel "ctx", none⟩]

/-- The deferred calls that end a run which got past the temporary file; `r` is
the discarded result of `os.Remove`. -/
def cleanupEvents (tmp : String) (r : Option GoError) : List Event :=
  cancelEvents ++ [⟨180, .remove tmp r, none⟩]

/-- The call logs of a browser run that fails with `e`. -/
def failedRuns (opts : List AllocatorOption) (tmp : String) (e : GoError) : List (List Event) :=
  [[⟨207, .browserStart 30 opts, some e⟩],
   [⟨207, .browserStart 30 opts, none⟩, ⟨208, .navigate ("file://" ++ tmp), some e⟩],
   [⟨207, .browserStart 30 opts, none⟩, ⟨208, .navigate ("file://" ++ tmp), none⟩,
    ⟨209, .waitReady "body", some e⟩],
   [⟨207, .browserStart 30 opts, none⟩, ⟨208, .navigate ("file://" ++ tmp), none⟩,
    ⟨209, .waitReady "body", none⟩, ⟨212, .printToPDF printParams "", some e⟩]]

/-- The call log of a browser run that returns the buffer `buf`. -/
def printedRun (opts : List AllocatorOption) (tmp : String) (buf : String) : List Event :=
  [⟨207, .browserStart 30 opts, none⟩, ⟨208, .navigate ("file://" ++ tmp), none⟩,
   ⟨209, .waitReady "body", none⟩, ⟨212, .printToPDF printParams buf, none⟩]

/-- The successful calls of the Loader and the Renderer (lines 131 to 156). -/
def loadedEvents (jsonPath : String) (templatePath : String) (jsonData : String)
    (resume : Resume) (templateData : String) : List Event :=
  [⟨131, .readFile jsonPath, none⟩, ⟨138, .unmarshal jsonData, none⟩,
   ⟨143, .readFile templatePath, none⟩, ⟨149, .templateParse "resume" templateData, none⟩,
   ⟨156, .templateExecute templateData resume, none⟩]

/-- The world after the Loader and the Renderer have succeeded. -/
def loadedWorld (w : World) (jsonPath : String) (templatePath : String) (jsonData : String)
    (resume : Resume) (templateData : String) : World :=
  ((((w.record 131 (.readFile jsonPath) none).record 138 (.unmarshal jsonData) none).record 143
    (.readFile templatePath) none).record 149 (.templateParse "resume" templateData) none).record
    156 (.templateExecute templateData resume) none

/-- The six steps of `generateResume`, in source order. -/
inductive Step where
  | readJSON
  | parseJSON
  | readTemplate
  | parseTemplate
  | executeTemplate
  | htmlToPDF
  deriving DecidableEq, Repr

/-- Position of a step in the source. -/
def Step.index : Step → Nat
  | .readJSON => 1
  | .parseJSON => 2
  | .readTemplate => 3
  | .parseTemplate => 4
  | .executeTemplate => 5
  | .htmlToPDF => 6

/-- The step a call belongs to, by the source line of the call: the five calls
of `generateResume`, and every line of `htmlToPDF`. -/
def stepOfSite (site : Nat) : Option Step :=
  if site = 131 then some .readJSON
  else if site = 138 then some .parseJSON
  else if site = 143 then some .readTemplate
  else if site = 149 then some .parseTemplate
  else if site = 156 then some .executeTemplate
  else if 168 ≤ site ∧ site ≤ 237 then some .htmlToPDF
  else none

/-- A step was performed: one of its calls is in the log. -/
def stepPerformed (s : Step) (log : List Event) : Bool :=
  log.any (fun ev => stepOfSite ev.site == some s)

/-- A step failed: one of its calls returned an error. -/
def stepFailed (s : Step) (log : List Event) : Bool :=
  log.any (fun ev => stepOfSite ev.site == some s && ev.err.isSome)

/-- The stages an error of `generateResume` can come from. -/
inductive Stage where
  | readJSONFile
  | parseJSON
  | readTemplateFile
  | parseTemplate
  | executeTemplate
  | createOutputDirectory
  | createTempFile
  | writeTempFile
  | generatePDF
  | writePDFFile
  deriving DecidableEq, Repr

/-- The stage of a call whose error is checked, by the source line of the call.
The four calls of the browser run belong to one stage. -/
def stageOfSite (site : Nat) : Option Stage :=
  if site = 131 then some .readJSONFile
  else if site = 138 then some .parseJSON
  else if site = 143 then some .readTemplateFile
  else if site = 149 then some .parseTemplate
  else if site = 156 then some .executeTemplate
  else if site = 171 then some .createOutputDirectory
  else if site = 176 then some .createTempFile
  else if site = 182 then some .writeTempFile
  else if site = 207 ∨ site = 208 ∨ site = 209 ∨ site = 212 then some .generatePDF
  else if site = 233 then some .writePDFFile
  else none

/-- The context prefixes of a stage, outermost first. -/
def Stage.context : Stage → List String
  | .readJSONFile => ["failed to read JSON file"]
  | .parseJSON => ["failed to parse JSON"]
  | .readTemplateFile => ["failed to read template file"]
  | .parseTemplate => ["failed to parse template"]
  | .executeTemplate => ["failed to execute template"]
  | .createOutputDirectory =>
    ["failed to convert HTML to PDF", "failed to create output directory"]
  | .createTempFile => ["failed to convert HTML to PDF", "failed to create temp file"]
  | .writeTempFile => ["failed to convert HTML to PDF", "failed to write HTML to temp file"]
  | .generatePDF => ["failed to convert HTML to PDF", "failed to generate PDF"]
  | .writePDFFile => ["failed to convert HTML to PDF", "failed to write PDF file"]

/-- An error wrapped in a list of contexts, outermost first. -/
def wrapAll : List String → GoError → GoError
  | [], e => e
  | c :: cs, e => Errorf c (wrapAll cs e)

/-- The message of an error wrapped in a list of contexts. -/
def joinContext : List String → String → String
  | [], msg => msg
  | c :: cs, msg => c ++ ": " ++ joinContext cs msg

/-- The error reached by `n` calls of `errors.Unwrap`. -/
def unwrapTimes : Nat → GoError → Option GoError
  | 0, e => some e
  | n + 1, e =>
    match e.Unwrap with
    | some cause => unwrapTimes n cause
    | none => none

/-- The call is `ioutil.WriteFile`. -/
def Call.isWriteFile : Call → Bool
  | .writeFile _ _ _ => true
  | _ => false

/-- The path of the file a logged call creates, writes or removes, if any. -/
def Event.target (ev : Event) : Option String :=
  match ev.call with
  | .tempFile _ _ name => if ev.err.isSome then none else some name
  | .fileWrite name _ => some name
  | .writeFile path _ _ => some path
  | .remove name _ => some name
  | _ => none

/-- Field number `i` of the record (in declaration order) has its zero value:
the empty string, or the slice without elements. -/
def Resume.fieldEmpty (i : Nat) (r : Resume) : Prop :=
  match i with
  | 0 => r.Name = ""
  | 1 => r.Title = ""
  | 2 => r.Email = ""
  | 3 => r.Phone = ""
  | 4 => r.Location = ""
  | 5 => r.LinkedIn = ""
  | 6 => r.GitHub = ""
  | 7 => r.Website = ""
  | 8 => r.Summary = ""
  | 9 => r.Experience.toList = []
  | 10 => r.TechnicalSkills.toList = []
  | 11 => r.SoftSkills.toList = []
  | 12 => r.Education.toList = []
  | 13 => r.Projects.toList = []
  | 14 => r.Certifications.toList = []
  | 15 => r.Languages.toList = []
  | _ => True

/-- The order of the steps in a call log `new` with result `res`: the statement
of the step order of `generateResume`, for any log. -/
def StepOrder (jsonPath templatePath : String) (new : List Event) (res : Option GoError) :
    Prop :=
  new.Pairwise
      (fun a b => ∃ s s2, stepOfSite a.site = some s ∧ stepOfSite b.site = some s2 ∧
        (s.index < s2.index ∨ (s = .htmlToPDF ∧ s2 = .htmlToPDF))) ∧
    (∀ ev ∈ new,
      stepOfSite ev.site ≠ none ∧ (ev.site = 131 → ev.call = .readFile jsonPath) ∧
      (ev.site = 143 → ev.call = .readFile templatePath)) ∧
    (∀ s s2 : Step, s.index < s2.index → stepPerformed s2 new = true →
      stepPerformed s new = true ∧ stepFailed s new = false) ∧
    (∀ s s2 : Step, s.index < s2.index → stepFailed s new = true →
      stepPerformed s2 new = false) ∧
    ((∃ s, stepFailed s new = true) ↔ res ≠ none) ∧
    (res = none ↔ ∀ s : Step, stepPerformed s new = true ∧ stepFailed s new = false)

/-! ## A sample environment -/

/-- The defaults of the four flags (lines 89 to 92). -/
def defaultFlags : Flags :=
  { jsonPath := "", templatePath := "template.html", outputPath := "resume.pdf", help := false }

/-- Flag parsing for command lines of the forms `-json p`, `-template p`,
`-output p`, `-help`, `-h`. -/
def sampleFlagParse : List String → Flags → FlagParse
  | [], f => .parsed f
  | [a], f =>
    if a = "-help" then .parsed { f with help := true }
    else if a = "-h" then .helpRequested
    else .failed ("flag provided but not defined: " ++ a)
  | a :: b :: rest, f =>
    if a = "-help" then sampleFlagParse (b :: rest) { f with help := true }
    else if a = "-json" then sampleFlagParse rest { f with jsonPath := b }
    else if a = "-template" then sampleFlagParse rest { f with templatePath := b }
    else if a = "-output" then sampleFlagParse rest { f with outputPath := b }
    else if a = "-h" then .helpRequested
    else .failed ("flag provided but not defined: " ++ a)

/-- An environment in which every call succeeds; the only valid JSON text it
knows is the empty object. -/
def sampleEnv : Env :=
  { readFault := fun _ _ => none
    filepathDir := fun _ => "."
    mkdirAll := fun _ _ => ([], none)
    tempName := fun _ _ _ => .ok "/tmp/resume-123456.html"
    fileWrite := fun _ _ _ => none
    writeFile := fun _ _ _ => none
    remove := fun _ _ => none
    sliceCap := fun _ c => max (c + c / 2) 4
    checkValid := fun data =>
      if data = "\x7b\x7d" then .ok (.object [])
      else .error (.external "unexpected end of JSON input")
    templateParse := fun _ => none
    templateExecute := fun _ r => .ok ("<h1>" ++ r.Name ++ "</h1><p>" ++ r.Title ++ "</p>")
    defaultExecAllocatorOptions := []
    browserStart := fun _ _ => none
    navigate := fun _ _ => none
    waitReady := fun _ _ _ => none
    printToPDF := fun _ _ _ => .ok "%PDF-1.4"
    flagParse := fun args => sampleFlagParse args defaultFlags
    printDefaults := ""
    logStamp := "2024/01/01 00:00:00 " }

/-- A world with an empty JSON object in `resume.json`, the truncated text of an
opening brace in `bad.json`, and a template in `template.html`. -/
def sampleWorld : World :=
  { fs :=
      { files := fun p =>
          if p = "resume.json" then some "\x7b\x7d"
          else if p = "bad.json" then some "\x7b"
          else if p = "template.html" then some "<h1>Resume</h1>"
          else none
        dirs := fun p => decide (p = ".")
        opened := fun _ => false }
    stdout := []
    stderr := []
    log := [] }

/-- The sample environment with a disk that fills up: `ioutil.WriteFile`
truncates the file, writes three bytes and fails. -/
def diskFullEnv : Env :=
  { sampleEnv with
    writeFile := fun _ _ data =>
      some (some (String.mk (data.data.take 3)), .external "no space left on device") }

/-- The sample environment with a system that refuses to remove files. -/
def removeRefusedEnv : Env :=
  { sampleEnv with remove := fun _ _ => some (.external "operation not permitted") }

/-- The sample world with a complete PDF from an earlier run in `resume.pdf`. -/
def rerunWorld : World :=
  { sampleWorld with fs := sampleWorld.fs.write "resume.pdf" "OLD-COMPLETE-PDF" }

/-! ## The shape of a run -/

@[simp] theorem record_log (w : World) (s : Nat) (c : Call) (e : Option GoError) :
    (w.record s c e).log = w.log ++ [{ site := s, call := c, err := e }] := rfl

@[simp] theorem record_fs (w : World) (s : Nat) (c : Call) (e : Option GoError) :
    (w.record s c e).fs = w.fs := rfl

@[simp] theorem record_stdout (w : World) (s : Nat) (c : Call) (e : Option GoError) :
    (w.record s c e).stdout = w.stdout := rfl

@[simp] theorem record_stderr (w : World) (s : Nat) (c : Call) (e : Option GoError) :
    (w.record s c e).stderr = w.stderr := rfl

theorem chromedpTrace_cases (env : Env) (fs : FS) (tmp : String) :
    (∃ e, (chromedpTrace env fs tmp).2 = .error e ∧
      (chromedpTrace env fs tmp).1 ∈ failedRuns (allocatorOptions env) tmp e) ∨
    (∃ buf, (chromedpTrace env fs tmp).2 = .ok buf ∧
      (chromedpTrace env fs tmp).1 = printedRun (allocatorOptions env) tmp buf) := by
  unfold chromedpTrace printAction failedRuns printedRun
  repeat' split
  all_goals simp

theorem tempFileResult_fresh {env : Env} {fs : FS} {dir pattern name : String}
    (h : tempFileResult env fs dir pattern = .ok name) : fs.files name = none := by
  unfold tempFileResult at h
  split at h
  · simp at h
  · split at h
    · simp at h
    · rename_i hc
      simp only [Except.ok.injEq] at h
      subst h
      simp at hc
      exact hc.1

theorem generate_cases (env : Env) (out tmp : String) (w : World) :
    (htmlToPDF_generate env out tmp w).1.stdout = w.stdout ∧
    (htmlToPDF_generate env out tmp w).1.stderr = w.stderr ∧
    ((∃ e run, run ∈ failedRuns (allocatorOptions env) tmp e ∧
        (htmlToPDF_generate env out tmp w).2 = some (Errorf "failed to generate PDF" e) ∧
        (htmlToPDF_generate env out tmp w).1.log = w.log ++ run ∧
        (htmlToPDF_generate env out tmp w).1.fs = w.fs) ∨
     (∃ buf e, (htmlToPDF_generate env out tmp w).2 = some (Errorf "failed to write PDF file" e) ∧
        (htmlToPDF_generate env out tmp w).1.log = w.log ++
          (printedRun (allocatorOptions env) tmp buf ++ [⟨233, .writeFile out buf 0o644, some e⟩]) ∧
        ∀ p, p ≠ out → (htmlToPDF_generate env out tmp w).1.fs.files p = w.fs.files p) ∨
     (∃ buf, (htmlToPDF_generate env out tmp w).2 = none ∧
        (htmlToPDF_generate env out tmp w).1.log = w.log ++
          (printedRun (allocatorOptions env) tmp buf ++ [⟨233, .writeFile out buf 0o644, none⟩]) ∧
        (htmlToPDF_generate env out tmp w).1.fs.files out = some buf ∧
        ∀ p, p ≠ out → (htmlToPDF_generate env out tmp w).1.fs.files p = w.fs.files p)) := by
  rcases chromedpTrace_cases env w.fs tmp with ⟨e, h2, h1⟩ | ⟨buf, h2, h1⟩
  · simp only [htmlToPDF_generate, chromedpRun, h2]
    exact ⟨by simp, by simp, Or.inl ⟨e, _, h1, by simp, by simp, by simp⟩⟩
  · simp only [htmlToPDF_generate, chromedpRun, h2, h1, WriteFile]
    rcases hw : writeFileResult env w.fs out buf with _ | ⟨left, e⟩
    · simp only [Option.map_none']
      refine ⟨by simp, by simp, Or.inr (Or.inr ⟨buf, by simp, by simp, ?_, ?_⟩)⟩
      · simp [FS.writeFile, FS.write]
      · intro p hp
        simp [FS.writeFile, FS.write, hp]
    · simp only [Option.map_some']
      refine ⟨by simp, by simp, Or.inr (Or.inl ⟨buf, e, by simp, by simp, ?_⟩)⟩
      intro p hp
      cases left <;> simp [FS.writeFile, FS.write, hp]

theorem withTemp_cases (env : Env) (html out tmp : String) (w : World) :
    (htmlToPDF_withTemp env html out tmp w).1.stdout = w.stdout ∧
    (htmlToPDF_withTemp env html out tmp w).1.stderr = w.stderr ∧
    ((∃ e, (htmlToPDF_withTemp env html out tmp w).2 =
          some (Errorf "failed to write HTML to temp file" e) ∧
        (htmlToPDF_withTemp env html out tmp w).1.log =
          w.log ++ [⟨182, .fileWrite tmp html, some e⟩] ∧
        ∀ p, p ≠ tmp → (htmlToPDF_withTemp env html out tmp w).1.fs.files p = w.fs.files p) ∨
     (∃ e run, run ∈ failedRuns (allocatorOptions env) tmp e ∧
        (htmlToPDF_withTemp env html out tmp w).2 = some (Errorf "failed to generate PDF" e) ∧
        (htmlToPDF_withTemp env html out tmp w).1.log =
          w.log ++ ([⟨182, .fileWrite tmp html, none⟩, ⟨185, .fileClose tmp, none⟩] ++ run ++
            cancelEvents) ∧
        ∀ p, p ≠ tmp → (htmlToPDF_withTemp env html out tmp w).1.fs.files p = w.fs.files p) ∨
     (∃ buf e, (htmlToPDF_withTemp env html out tmp w).2 =
          some (Errorf "failed to write PDF file" e) ∧
        (htmlToPDF_withTemp env html out tmp w).1.log =
          w.log ++ ([⟨182, .fileWrite tmp html, none⟩, ⟨185, .fileClose tmp, none⟩] ++
            printedRun (allocatorOptions env) tmp buf ++
            [⟨233, .writeFile out buf 0o644, some e⟩] ++ cancelEvents) ∧
        ∀ p, p ≠ out → p ≠ tmp →
          (htmlToPDF_withTemp env html out tmp w).1.fs.files p = w.fs.files p) ∨
     (∃ buf, (htmlToPDF_withTemp env html out tmp w).2 = none ∧
        (htmlToPDF_withTemp env html out tmp w).1.log =
          w.log ++ ([⟨182, .fileWrite tmp html, none⟩, ⟨185, .fileClose tmp, none⟩] ++
            printedRun (allocatorOptions env) tmp buf ++
            [⟨233, .writeFile out buf 0o644, none⟩] ++ cancelEvents) ∧
        (htmlToPDF_withTemp env html out tmp w).1.fs.files out = some buf ∧
        ∀ p, p ≠ out → p ≠ tmp →
          (htmlToPDF_withTemp env html out tmp w).1.fs.files p = w.fs.files p)) := by
  have hg := generate_cases env out tmp (FileClose 185 tmp (FileWrite env 182 tmp html w).1)
  rcases hw : env.fileWrite w.fs tmp html with _ | ⟨written, e⟩
  · simp only [htmlToPDF_withTemp, FileWrite, hw, Option.map_none', FileClose, cancelContexts,
      record_log, record_fs, record_stdout, record_stderr, writtenBy] at hg ⊢
    obtain ⟨h1, h2, hg⟩ := hg
    refine ⟨h1, h2, Or.inr ?_⟩
    rcases hg with ⟨e, run, hr, hres, hlog, hfs⟩ | ⟨buf, e, hres, hlog, hfs⟩ |
      ⟨buf, hres, hlog, hout, hfs⟩
    · refine Or.inl ⟨e, run, hr, hres, ?_, ?_⟩
      · rw [hlog]
        simp [cancelEvents]
      · intro p hp
        rw [hfs]
        simp [FS.write, FS.setOpened, hp]
    · refine Or.inr (Or.inl ⟨buf, e, hres, ?_, ?_⟩)
      · rw [hlog]
        simp [cancelEvents]
      · intro p hp hp2
        rw [hfs p hp]
        simp [FS.write, FS.setOpened, hp2]
    · refine Or.inr (Or.inr ⟨buf, hres, ?_, ?_, ?_⟩)
      · rw [hlog]
        simp [cancelEvents]
      · simpa using hout
      · intro p hp hp2
        rw [hfs p hp]
        simp [FS.write, FS.setOpened, hp2]
  · simp only [htmlToPDF_withTemp, FileWrite, hw, Option.map_some']
    refine ⟨by simp, by simp, Or.inl ⟨e, by simp, by simp, ?_⟩⟩
    intro p hp
    simp [FS.write, hp]

theorem removeWith_files_ne (fs : FS) (name p : String) (r : Option GoError) (hp : p ≠ name) :
    (fs.removeWith name r).files p = fs.files p := by
  cases r <;> simp [FS.removeWith, FS.remove, hp]

theorem removeWith_files_none (fs : FS) (name : String) :
    (fs.removeWith name none).files name = none := by
  simp [FS.removeWith, FS.remove]

theorem htmlToPDF_cases (env : Env) (html out : String) (w : World) :
    (htmlToPDF env html out w).1.stdout = w.stdout ∧
    (htmlToPDF env html out w).1.stderr = w.stderr ∧
    ((∃ e, (htmlToPDF env html out w).2 = some (Errorf "failed to create output directory" e) ∧
        (htmlToPDF env html out w).1.log =
          w.log ++ [⟨171, .mkdirAll (env.filepathDir out) 0o755, some e⟩] ∧
        (htmlToPDF env html out w).1.fs.files = w.fs.files) ∨
     (∃ e, (htmlToPDF env html out w).2 = some (Errorf "failed to create temp file" e) ∧
        (htmlToPDF env html out w).1.log =
          w.log ++ [⟨171, .mkdirAll (env.filepathDir out) 0o755, none⟩,
            ⟨176, .tempFile "" "resume-*.html" "", some e⟩] ∧
        (htmlToPDF env html out w).1.fs.files = w.fs.files) ∨
     (∃ tmp e r, w.fs.files tmp = none ∧
        (htmlToPDF env html out w).2 = some (Errorf "failed to write HTML to temp file" e) ∧
        (htmlToPDF env html out w).1.log =
          w.log ++ [⟨171, .mkdirAll (env.filepathDir out) 0o755, none⟩,
            ⟨176, .tempFile "" "resume-*.html" tmp, none⟩, ⟨182, .fileWrite tmp html, some e⟩,
            ⟨180, .remove tmp r, none⟩] ∧
        (r = none → (htmlToPDF env html out w).1.fs.files tmp = none) ∧
        ∀ p, p ≠ tmp → (htmlToPDF env html out w).1.fs.files p = w.fs.files p) ∨
     (∃ tmp e run r, w.fs.files tmp = none ∧ run ∈ failedRuns (allocatorOptions env) tmp e ∧
        (htmlToPDF env html out w).2 = some (Errorf "failed to generate PDF" e) ∧
        (htmlToPDF env html out w).1.log =
          w.log ++ (setupEvents (env.filepathDir out) tmp html ++ run ++ cleanupEvents tmp r) ∧
        (r = none → (htmlToPDF env html out w).1.fs.files tmp = none) ∧
        ∀ p, p ≠ tmp → (htmlToPDF env html out w).1.fs.files p = w.fs.files p) ∨
     (∃ tmp buf e r, w.fs.files tmp = none ∧
        (htmlToPDF env html out w).2 = some (Errorf "failed to write PDF file" e) ∧
        (htmlToPDF env html out w).1.log =
          w.log ++ (setupEvents (env.filepathDir out) tmp html ++
            printedRun (allocatorOptions env) tmp buf ++
            [⟨233, .writeFile out buf 0o644, some e⟩] ++ cleanupEvents tmp r) ∧
        (r = none → (htmlToPDF env html out w).1.fs.files tmp = none) ∧
        ∀ p, p ≠ out → p ≠ tmp → (htmlToPDF env html out w).1.fs.files p = w.fs.files p) ∨
     (∃ tmp buf r, w.fs.files tmp = none ∧
        (htmlToPDF env html out w).2 = none ∧
        (htmlToPDF env html out w).1.log =
          w.log ++ (setupEvents (env.filepathDir out) tmp html ++
            printedRun (allocatorOptions env) tmp buf ++
            [⟨233, .writeFile out buf 0o644, none⟩] ++ cleanupEvents tmp r) ∧
        (r = none → (htmlToPDF env html out w).1.fs.files tmp = none) ∧
        (tmp ≠ out → (htmlToPDF env html out w).1.fs.files out = some buf) ∧
        ∀ p, p ≠ out → p ≠ tmp → (htmlToPDF env html out w).1.fs.files p = w.fs.files p)) := by
  have hwt := fun tmp => withTemp_cases env html out tmp
    (TempFile env 176 "" "resume-*.html" (MkdirAll env 171 (env.filepathDir out) 0o755 w).1).1
  rcases hm : mkdirAllResult env w.fs (env.filepathDir out) with ⟨created, _ | e⟩
  · rcases ht : tempFileResult env (w.fs.addDirs created) "" "resume-*.html" with e | tmp
    · simp only [htmlToPDF, MkdirAll, TempFile, hm, ht, record_log, record_fs, record_stdout,
        record_stderr, errOf, tempFileName, FS.createTemp]
      refine ⟨trivial, trivial, Or.inr (Or.inl ⟨e, by simp, by simp, ?_⟩)⟩
      simp [FS.addDirs]
    · have hfresh : w.fs.files tmp = none := by
        have := tempFileResult_fresh ht
        simpa [FS.addDirs] using this
      specialize hwt tmp
      simp only [htmlToPDF, MkdirAll, TempFile, hm, ht, record_log, record_fs, record_stdout,
        record_stderr, errOf, tempFileName, FS.createTemp, Remove] at hwt ⊢
      generalize env.remove _ tmp = r
      obtain ⟨h1, h2, hwt⟩ := hwt
      refine ⟨h1, h2, Or.inr (Or.inr ?_)⟩
      have hgone : r = none → ∀ (fs : FS), (fs.removeWith tmp r).files tmp = none := by
        rintro rfl fs
        exact removeWith_files_none fs tmp
      rcases hwt with ⟨e, hres, hlog, hfs⟩ | ⟨e, run, hr, hres, hlog, hfs⟩ |
        ⟨buf, e, hres, hlog, hfs⟩ | ⟨buf, hres, hlog, hout, hfs⟩
      · refine Or.inl ⟨tmp, e, r, hfresh, hres, ?_, fun hr => hgone hr _, ?_⟩
        · rw [hlog]
          simp
        · intro p hp
          rw [removeWith_files_ne _ _ _ _ hp, hfs p hp]
          simp [FS.write, FS.addDirs, FS.setOpened, hp]
      · refine Or.inr (Or.inl ⟨tmp, e, run, r, hfresh, hr, hres, ?_, fun hr => hgone hr _, ?_⟩)
        · rw [hlog]
          simp [setupEvents, cleanupEvents, cancelEvents]
        · intro p hp
          rw [removeWith_files_ne _ _ _ _ hp, hfs p hp]
          simp [FS.write, FS.addDirs, FS.setOpened, hp]
      · refine Or.inr (Or.inr (Or.inl
          ⟨tmp, buf, e, r, hfresh, hres, ?_, fun hr => hgone hr _, ?_⟩))
        · rw [hlog]
          simp [setupEvents, cleanupEvents, cancelEvents]
        · intro p hp hp2
          rw [removeWith_files_ne _ _ _ _ hp2, hfs p hp hp2]
          simp [FS.write, FS.addDirs, FS.setOpened, hp2]
      · refine Or.inr (Or.inr (Or.inr
          ⟨tmp, buf, r, hfresh, hres, ?_, fun hr => hgone hr _, ?_, ?_⟩))
        · rw [hlog]
          simp [setupEvents, cleanupEvents, cancelEvents]
        · intro hne
          rw [removeWith_files_ne _ _ _ _ (Ne.symm hne)]
          exact hout
        · intro p hp hp2
          rw [removeWith_files_ne _ _ _ _ hp2, hfs p hp hp2]
          simp [FS.write, FS.addDirs, FS.setOpened, hp2]
  · simp only [htmlToPDF, MkdirAll, hm, record_log, record_fs, record_stdout, record_stderr]
    refine ⟨trivial, trivial, Or.inl ⟨e, by simp, by simp, ?_⟩⟩
    simp [FS.addDirs]


theorem newEvents_eq {w w2 : World} {new : List Event} (h : w2.log = w.log ++ new) :
    newEvents w w2 = new := by
  simp [newEvents, h]

/-- C9: every print-to-PDF request made by `htmlToPDF` carries the same
parameters, whatever the HTML and the output path: background on, paper 8.27 by
11.69 inches, the four margins 0, CSS page size preferred, and every other
parameter left unset; and a run whose wait for the body succeeds makes the
request. -/
theorem htmlToPDF_print_parameters (env : Env) (html outputPath : String) (w : World) :
    (∀ ev ∈ newEvents w (htmlToPDF env html outputPath w).1, ∀ params buf,
      ev.call = .printToPDF params buf →
      params =
        { Landscape := false, DisplayHeaderFooter := false, PrintBackground := true,
          Scale := ⟨0, 0⟩, PaperWidth := ⟨827, 2⟩, PaperHeight := ⟨1169, 2⟩,
          MarginTop := ⟨0, 0⟩, MarginBottom := ⟨0, 0⟩, MarginLeft := ⟨0, 0⟩,
          MarginRight := ⟨0, 0⟩, PageRanges := "", HeaderTemplate := "", FooterTemplate := "",
          PreferCSSPageSize := true, TransferMode := "", GenerateTaggedPDF := false,
          GenerateDocumentOutline := false }) ∧
    (⟨209, .waitReady "body", none⟩ ∈ newEvents w (htmlToPDF env html outputPath w).1 →
      ∃ ev ∈ newEvents w (htmlToPDF env html outputPath w).1, ∃ buf,
        ev.site = 212 ∧ ev.call = .printToPDF printParams buf) := by
  have hp : printParams =
      { Landscape := false, DisplayHeaderFooter := false, PrintBackground := true,
        Scale := ⟨0, 0⟩, PaperWidth := ⟨827, 2⟩, PaperHeight := ⟨1169, 2⟩,
        MarginTop := ⟨0, 0⟩, MarginBottom := ⟨0, 0⟩, MarginLeft := ⟨0, 0⟩,
        MarginRight := ⟨0, 0⟩, PageRanges := "", HeaderTemplate := "", FooterTemplate := "",
        PreferCSSPageSize := true, TransferMode := "", GenerateTaggedPDF := false,
        GenerateDocumentOutline := false } := rfl
  obtain ⟨-, -, hc⟩ := htmlToPDF_cases env html outputPath w
  rcases hc with ⟨e, -, hlog, -⟩ | ⟨e, -, hlog, -⟩ | ⟨tmp, e, r, -, -, hlog, -, -⟩ |
    ⟨tmp, e, run, r, -, hr, -, hlog, -, -⟩ | ⟨tmp, buf, e, r, -, -, hlog, -, -⟩ |
    ⟨tmp, buf, r, -, -, hlog, -, -, -⟩
  · rw [newEvents_eq hlog]
    simp
  · rw [newEvents_eq hlog]
    simp
  · rw [newEvents_eq hlog]
    simp
  · rw [newEvents_eq hlog]
    simp only [failedRuns, List.mem_cons, List.mem_singleton, List.not_mem_nil, or_false] at hr
    rcases hr with rfl | rfl | rfl | rfl <;>
      simp [setupEvents, cleanupEvents, cancelEvents, ← hp]
  · rw [newEvents_eq hlog]
    simp [setupEvents, cleanupEvents, cancelEvents, printedRun, ← hp]
  · rw [newEvents_eq hlog]
    simp [setupEvents, cleanupEvents, cancelEvents, printedRun, ← hp]

/-- C6 (as amended): whenever `htmlToPDF` has created the temporary file, the
last call it makes before it returns is `os.Remove` on that file, on every path
(success, failed write of the HTML, failed browser run, failed write of the
PDF); the result of that call is discarded, and when it is nil the file does not
exist when `htmlToPDF` returns. -/
theorem htmlToPDF_removes_temp_file (env : Env) (html outputPath : String) (w : World)
    (ev : Event) (name : String)
    (hmem : ev ∈ newEvents w (htmlToPDF env html outputPath w).1)
    (hcall : ev.call = .tempFile "" "resume-*.html" name) (hok : ev.err = none) :
    ∃ r, (newEvents w (htmlToPDF env html outputPath w).1).getLast? =
        some ⟨180, .remove name r, none⟩ ∧
      (r = none → (htmlToPDF env html outputPath w).1.fs.files name = none) := by
  obtain ⟨-, -, hc⟩ := htmlToPDF_cases env html outputPath w
  rcases hc with ⟨e, -, hlog, -⟩ | ⟨e, -, hlog, -⟩ | ⟨tmp, e, r, -, -, hlog, hgone, -⟩ |
    ⟨tmp, e, run, r, -, hr, -, hlog, hgone, -⟩ | ⟨tmp, buf, e, r, -, -, hlog, hgone, -⟩ |
    ⟨tmp, buf, r, -, -, hlog, hgone, -, -⟩
  · rw [newEvents_eq hlog] at hmem
    simp at hmem
    subst hmem
    simp at hcall
  · rw [newEvents_eq hlog] at hmem
    simp at hmem
    rcases hmem with rfl | rfl
    · simp at hcall
    · simp at hok
  · rw [newEvents_eq hlog] at hmem ⊢
    simp at hmem
    rcases hmem with rfl | rfl | rfl | rfl <;> simp at hcall hok
    subst hcall
    exact ⟨r, by simp, hgone⟩
  · rw [newEvents_eq hlog] at hmem ⊢
    simp only [failedRuns, List.mem_cons, List.mem_singleton, List.not_mem_nil, or_false] at hr
    rcases hr with rfl | rfl | rfl | rfl <;>
    · simp [setupEvents, cleanupEvents, cancelEvents] at hmem
      rcases hmem with rfl | rfl | rfl | rfl | rfl | rfl | rfl | rfl | rfl | rfl | rfl | rfl <;>
        simp at hcall hok
      all_goals
        subst hcall
        exact ⟨r, by simp [setupEvents, cleanupEvents, cancelEvents], hgone⟩
  · rw [newEvents_eq hlog] at hmem ⊢
    simp [setupEvents, cleanupEvents, cancelEvents, printedRun] at hmem
    rcases hmem with rfl | rfl | rfl | rfl | rfl | rfl | rfl | rfl | rfl | rfl | rfl | rfl | rfl <;>
      simp at hcall hok
    subst hcall
    exact ⟨r, by simp [setupEvents, cleanupEvents, cancelEvents, printedRun], hgone⟩
  · rw [newEvents_eq hlog] at hmem ⊢
    simp [setupEvents, cleanupEvents, cancelEvents, printedRun] at hmem
    rcases hmem with rfl | rfl | rfl | rfl | rfl | rfl | rfl | rfl | rfl | rfl | rfl | rfl | rfl <;>
      simp at hcall hok
    subst hcall
    exact ⟨r, by simp [setupEvents, cleanupEvents, cancelEvents, printedRun], hgone⟩

/-- C6 (counterexample): on a system that refuses to remove the file, the run
succeeds, the temporary file was created, and it still exists, with the HTML in
it, when `htmlToPDF` returns. -/
theorem htmlToPDF_temp_file_left :
    (⟨176, .tempFile "" "resume-*.html" "/tmp/resume-123456.html", none⟩ : Event) ∈
      newEvents sampleWorld
        (htmlToPDF removeRefusedEnv "<h1>Resume</h1>" "resume.pdf" sampleWorld).1 ∧
    (htmlToPDF removeRefusedEnv "<h1>Resume</h1>" "resume.pdf" sampleWorld).2 = none ∧
    (htmlToPDF removeRefusedEnv "<h1>Resume</h1>" "resume.pdf" sampleWorld).1.fs.files
      "/tmp/resume-123456.html" = some "<h1>Resume</h1>" := by
  refine ⟨by decide, rfl, rfl⟩

/-- C5 (as amended): in every run of `htmlToPDF` there is at most one `WriteFile`
call; it is on the output path, it comes right after the print request that
returned its buffer without error, every call before it has succeeded, and the
bytes passed to it are that buffer.  Unless the temporary file has the name of
the output path, no other call creates, writes or removes the output path.
When a call before `WriteFile` fails, `WriteFile` is never called and, unless
the temporary file has the name of the output path, the output path holds after
the run what it held before.  No file other than the output path and the
temporary file is changed, and after a successful run whose temporary file is
not the output path, the output path holds the buffer. -/
theorem htmlToPDF_writes_output_once (env : Env) (html outputPath : String) (w : World) :
    ((newEvents w (htmlToPDF env html outputPath w).1).filter
        (fun ev => ev.call.isWriteFile)).length ≤ 1 ∧
    (∀ ev ∈ newEvents w (htmlToPDF env html outputPath w).1, ∀ path data perm,
      ev.call = .writeFile path data perm →
      path = outputPath ∧
      ∃ before after, newEvents w (htmlToPDF env html outputPath w).1 =
          before ++ ⟨212, .printToPDF printParams data, none⟩ :: ev :: after ∧
        ∀ x ∈ before, x.err = none) ∧
    (∀ ev ∈ newEvents w (htmlToPDF env html outputPath w).1,
      ev.target = some outputPath →
      ev.call.isWriteFile = true ∨
      ⟨176, .tempFile "" "resume-*.html" outputPath, none⟩ ∈
        newEvents w (htmlToPDF env html outputPath w).1) ∧
    (∀ ev ∈ newEvents w (htmlToPDF env html outputPath w).1,
      ev.err ≠ none → ev.call.isWriteFile = false →
      (∀ x ∈ newEvents w (htmlToPDF env html outputPath w).1, x.call.isWriteFile = false) ∧
      (⟨176, .tempFile "" "resume-*.html" outputPath, none⟩ ∉
          newEvents w (htmlToPDF env html outputPath w).1 →
        (htmlToPDF env html outputPath w).1.fs.files outputPath = w.fs.files outputPath)) ∧
    (∀ p, p ≠ outputPath →
      ⟨176, .tempFile "" "resume-*.html" p, none⟩ ∉
        newEvents w (htmlToPDF env html outputPath w).1 →
      (htmlToPDF env html outputPath w).1.fs.files p = w.fs.files p) ∧
    ((htmlToPDF env html outputPath w).2 = none →
      ∃ tmp buf, ⟨176, .tempFile "" "resume-*.html" tmp, none⟩ ∈
          newEvents w (htmlToPDF env html outputPath w).1 ∧
        ⟨233, .writeFile outputPath buf 0o644, none⟩ ∈
          newEvents w (htmlToPDF env html outputPath w).1 ∧
        (tmp ≠ outputPath → (htmlToPDF env html outputPath w).1.fs.files outputPath = some buf)) := by
  obtain ⟨-, -, hc⟩ := htmlToPDF_cases env html outputPath w
  rcases hc with ⟨e, hres, hlog, hfs⟩ | ⟨e, hres, hlog, hfs⟩ |
    ⟨tmp, e, r, hfresh, hres, hlog, hgone, hfs⟩ |
    ⟨tmp, e, run, r, hfresh, hr, hres, hlog, hgone, hfs⟩ |
    ⟨tmp, buf, e, r, hfresh, hres, hlog, hgone, hfs⟩ |
    ⟨tmp, buf, r, hfresh, hres, hlog, hgone, hout, hfs⟩
  · rw [newEvents_eq hlog, hres, hfs]
    simp [Call.isWriteFile, Event.target]
  · rw [newEvents_eq hlog, hres, hfs]
    simp [Call.isWriteFile, Event.target]
  · rw [newEvents_eq hlog, hres]
    refine ⟨by simp [setupEvents, cleanupEvents, cancelEvents, printedRun, Call.isWriteFile],
      by simp [setupEvents, cleanupEvents, cancelEvents, printedRun], ?_, ?_, ?_, by simp⟩
    · intro ev hev ht
      simp [setupEvents, cleanupEvents, cancelEvents, printedRun] at hev
      rcases hev with rfl | rfl | rfl | rfl | rfl | rfl | rfl | rfl | rfl | rfl | rfl | rfl <;>
        simp [Event.target] at ht ⊢ <;> simp [ht, setupEvents, cleanupEvents, cancelEvents,
          printedRun]
    · intro ev hev herr hnw
      refine ⟨by simp [setupEvents, cleanupEvents, cancelEvents,
          printedRun, Call.isWriteFile], fun hno => hfs _ ?_⟩
      simpa [setupEvents, cleanupEvents, cancelEvents, printedRun, eq_comm] using hno
    · intro p _ hno
      exact hfs p (by simpa [setupEvents, cleanupEvents, cancelEvents,
          printedRun, eq_comm] using hno)
  · rw [newEvents_eq hlog, hres]
    simp only [failedRuns, List.mem_cons, List.mem_singleton, List.not_mem_nil, or_false] at hr
    rcases hr with rfl | rfl | rfl | rfl
    all_goals
      refine ⟨by simp [setupEvents, cleanupEvents, cancelEvents, printedRun, Call.isWriteFile],
        by simp [setupEvents, cleanupEvents, cancelEvents, printedRun], ?_, ?_, ?_, by simp⟩
      · intro ev hev ht
        simp [setupEvents, cleanupEvents, cancelEvents, printedRun] at hev
        rcases hev with rfl | rfl | rfl | rfl | rfl | rfl | rfl | rfl | rfl | rfl | rfl | rfl <;>
          simp [Event.target] at ht ⊢ <;> simp [ht, setupEvents, cleanupEvents, cancelEvents,
          printedRun]
      · intro ev hev herr hnw
        refine ⟨by simp [setupEvents, cleanupEvents, cancelEvents,
          printedRun, Call.isWriteFile], fun hno => hfs _ ?_⟩
        simpa [setupEvents, cleanupEvents, cancelEvents, printedRun, eq_comm] using hno
      · intro p _ hno
        exact hfs p (by simpa [setupEvents, cleanupEvents, cancelEvents,
          printedRun, eq_comm] using hno)
  · rw [newEvents_eq hlog, hres]
    refine ⟨by simp [setupEvents, cleanupEvents, cancelEvents,
          printedRun, Call.isWriteFile], ?_, ?_, ?_, ?_, ?_⟩
    · intro ev hev path data perm hcall
      simp [setupEvents, cleanupEvents, cancelEvents, printedRun] at hev
      rcases hev with rfl | rfl | rfl | rfl | rfl | rfl | rfl | rfl | rfl | rfl | rfl | rfl |
        rfl <;> simp at hcall
      obtain ⟨rfl, rfl, rfl⟩ := hcall
      refine ⟨rfl, setupEvents (env.filepathDir outputPath) tmp html ++
        [⟨207, .browserStart 30 (allocatorOptions env), none⟩,
          ⟨208, .navigate ("file://" ++ tmp), none⟩, ⟨209, .waitReady "body", none⟩],
        cleanupEvents tmp r, ?_, ?_⟩
      · simp [setupEvents, cleanupEvents, cancelEvents, printedRun]
      · simp [setupEvents]
    · intro ev hev ht
      simp [setupEvents, cleanupEvents, cancelEvents, printedRun] at hev
      rcases hev with rfl | rfl | rfl | rfl | rfl | rfl | rfl | rfl | rfl | rfl | rfl | rfl |
        rfl <;> simp [Event.target, Call.isWriteFile] at ht ⊢ <;> simp [ht, setupEvents, cleanupEvents, cancelEvents,
          printedRun]
    · intro ev hev herr hnw
      simp [setupEvents, cleanupEvents, cancelEvents, printedRun] at hev
      rcases hev with rfl | rfl | rfl | rfl | rfl | rfl | rfl | rfl | rfl | rfl | rfl | rfl |
        rfl <;> simp [Call.isWriteFile] at herr hnw
    · intro p hp hno
      exact hfs p hp (by simpa [setupEvents, cleanupEvents, cancelEvents,
          printedRun, eq_comm] using hno)
    · simp
  · rw [newEvents_eq hlog, hres]
    refine ⟨by simp [setupEvents, cleanupEvents, cancelEvents,
          printedRun, Call.isWriteFile], ?_, ?_, ?_, ?_, ?_⟩
    · intro ev hev path data perm hcall
      simp [setupEvents, cleanupEvents, cancelEvents, printedRun] at hev
      rcases hev with rfl | rfl | rfl | rfl | rfl | rfl | rfl | rfl | rfl | rfl | rfl | rfl |
        rfl <;> simp at hcall
      obtain ⟨rfl, rfl, rfl⟩ := hcall
      refine ⟨rfl, setupEvents (env.filepathDir outputPath) tmp html ++
        [⟨207, .browserStart 30 (allocatorOptions env), none⟩,
          ⟨208, .navigate ("file://" ++ tmp), none⟩, ⟨209, .waitReady "body", none⟩],
        cleanupEvents tmp r, ?_, ?_⟩
      · simp [setupEvents, cleanupEvents, cancelEvents, printedRun]
      · simp [setupEvents]
    · intro ev hev ht
      simp [setupEvents, cleanupEvents, cancelEvents, printedRun] at hev
      rcases hev with rfl | rfl | rfl | rfl | rfl | rfl | rfl | rfl | rfl | rfl | rfl | rfl |
        rfl <;> simp [Event.target, Call.isWriteFile] at ht ⊢ <;> simp [ht, setupEvents, cleanupEvents, cancelEvents,
          printedRun]
    · intro ev hev herr hnw
      simp [setupEvents, cleanupEvents, cancelEvents, printedRun] at hev
      rcases hev with rfl | rfl | rfl | rfl | rfl | rfl | rfl | rfl | rfl | rfl | rfl | rfl |
        rfl <;> simp [Call.isWriteFile] at herr hnw
    · intro p hp hno
      exact hfs p hp (by simpa [setupEvents, cleanupEvents, cancelEvents,
          printedRun, eq_comm] using hno)
    · intro _
      exact ⟨tmp, buf, by simp [setupEvents], by simp [setupEvents, cleanupEvents, cancelEvents,
          printedRun], hout⟩

theorem loadedWorld_log (w : World) (j t data : String) (resume : Resume) (text : String) :
    (loadedWorld w j t data resume text).log = w.log ++ loadedEvents j t data resume text := by
  simp [loadedWorld, loadedEvents]

theorem loadedWorld_fs (w : World) (j t data : String) (resume : Resume) (text : String) :
    (loadedWorld w j t data resume text).fs = w.fs := rfl

theorem generateResume_cases (env : Env) (j t o : String) (w : World) :
    (∃ e, readFileResult env w.fs j = .error e ∧
      generateResume env j t o w =
        (w.record 131 (.readFile j) (some e), some (Errorf "failed to read JSON file" e))) ∨
    (∃ data e, readFileResult env w.fs j = .ok data ∧
      (unmarshalResult env data Resume.zero).2 = some e ∧
      generateResume env j t o w =
        ((w.record 131 (.readFile j) none).record 138 (.unmarshal data) (some e),
          some (Errorf "failed to parse JSON" e))) ∨
    (∃ data e, readFileResult env w.fs j = .ok data ∧
      (unmarshalResult env data Resume.zero).2 = none ∧
      readFileResult env w.fs t = .error e ∧
      generateResume env j t o w =
        (((w.record 131 (.readFile j) none).record 138 (.unmarshal data) none).record 143
          (.readFile t) (some e), some (Errorf "failed to read template file" e))) ∨
    (∃ data text e, readFileResult env w.fs j = .ok data ∧
      (unmarshalResult env data Resume.zero).2 = none ∧
      readFileResult env w.fs t = .ok text ∧ env.templateParse text = some e ∧
      generateResume env j t o w =
        ((((w.record 131 (.readFile j) none).record 138 (.unmarshal data) none).record 143
          (.readFile t) none).record 149 (.templateParse "resume" text) (some e),
          some (Errorf "failed to parse template" e))) ∨
    (∃ data text e, readFileResult env w.fs j = .ok data ∧
      (unmarshalResult env data Resume.zero).2 = none ∧
      readFileResult env w.fs t = .ok text ∧ env.templateParse text = none ∧
      env.templateExecute text (unmarshalResult env data Resume.zero).1 = .error e ∧
      generateResume env j t o w =
        (((((w.record 131 (.readFile j) none).record 138 (.unmarshal data) none).record 143
          (.readFile t) none).record 149 (.templateParse "resume" text) none).record 156
          (.templateExecute text (unmarshalResult env data Resume.zero).1) (some e),
          some (Errorf "failed to execute template" e))) ∨
    (∃ data text html, readFileResult env w.fs j = .ok data ∧
      (unmarshalResult env data Resume.zero).2 = none ∧
      readFileResult env w.fs t = .ok text ∧ env.templateParse text = none ∧
      env.templateExecute text (unmarshalResult env data Resume.zero).1 = .ok html ∧
      generateResume env j t o w =
        ((htmlToPDF env html o
            (loadedWorld w j t data (unmarshalResult env data Resume.zero).1 text)).1,
          (htmlToPDF env html o
            (loadedWorld w j t data (unmarshalResult env data Resume.zero).1 text)).2.map
            (Errorf "failed to convert HTML to PDF"))) := by
  rcases h1 : readFileResult env w.fs j with e | data
  · left
    exact ⟨e, rfl, by simp [generateResume, ReadFile, h1, errOf]⟩
  right
  rcases h2 : (unmarshalResult env data Resume.zero).2 with _ | e
  swap
  · left
    exact ⟨data, e, rfl, h2, by simp [generateResume, ReadFile, Unmarshal, h1, h2, errOf]⟩
  right
  rcases h3 : readFileResult env w.fs t with e | text
  · left
    exact ⟨data, e, rfl, h2, rfl,
      by simp [generateResume, ReadFile, Unmarshal, h1, h2, h3, errOf]⟩
  right
  rcases h4 : env.templateParse text with _ | e
  swap
  · left
    exact ⟨data, text, e, rfl, h2, rfl, h4,
      by simp [generateResume, ReadFile, Unmarshal, TemplateParse, h1, h2, h3, h4, errOf]⟩
  right
  rcases h5 : env.templateExecute text (unmarshalResult env data Resume.zero).1 with e | html
  · left
    exact ⟨data, text, e, rfl, h2, rfl, h4, h5,
      by simp [generateResume, ReadFile, Unmarshal, TemplateParse, TemplateExecute, h1, h2, h3,
        h4, h5, errOf]⟩
  right
  refine ⟨data, text, html, rfl, h2, rfl, h4, h5, ?_⟩
  simp only [generateResume, ReadFile, Unmarshal, TemplateParse, TemplateExecute, h1, h2, h3,
    h4, h5, errOf, record_fs, loadedWorld]
  rcases htmlToPDF env html o _ with ⟨w2, _ | e⟩ <;> simp

theorem htmlToPDF_summary (env : Env) (html out : String) (w : World) :
    ∃ L, (htmlToPDF env html out w).1.log = w.log ++ L ∧ L ≠ [] ∧
      (∀ ev ∈ L, stepOfSite ev.site = some .htmlToPDF) ∧
      (((htmlToPDF env html out w).2 = none ∧ ∀ ev ∈ L, ev.err = none) ∨
       (∃ ev cause stage ctx, ev ∈ L ∧ ev.err = some cause ∧
          stageOfSite ev.site = some stage ∧
          stage.context = ["failed to convert HTML to PDF", ctx] ∧
          (htmlToPDF env html out w).2 = some (Errorf ctx cause) ∧
          ∀ x ∈ L, x.err ≠ none → x = ev)) := by
  obtain ⟨-, -, hc⟩ := htmlToPDF_cases env html out w
  rcases hc with ⟨e, hres, hlog, -⟩ | ⟨e, hres, hlog, -⟩ | ⟨tmp, e, r, -, hres, hlog, -, -⟩ |
    ⟨tmp, e, run, r, -, hr, hres, hlog, -, -⟩ | ⟨tmp, buf, e, r, -, hres, hlog, -, -⟩ |
    ⟨tmp, buf, r, -, hres, hlog, -, -, -⟩
  · refine ⟨_, hlog, by simp, by simp [stepOfSite], Or.inr
      ⟨⟨171, .mkdirAll (env.filepathDir out) 0o755, some e⟩, e, .createOutputDirectory, _,
        by simp, rfl, rfl, rfl, hres, by simp⟩⟩
  · refine ⟨_, hlog, by simp, by simp [stepOfSite], Or.inr
      ⟨⟨176, .tempFile "" "resume-*.html" "", some e⟩, e, .createTempFile, _,
        by simp, rfl, rfl, rfl, hres, by simp⟩⟩
  · refine ⟨_, hlog, by simp, by simp [stepOfSite], Or.inr
      ⟨⟨182, .fileWrite tmp html, some e⟩, e, .writeTempFile, _,
        by simp, rfl, rfl, rfl, hres, by simp⟩⟩
  · refine ⟨_, hlog, by simp [setupEvents], ?_, Or.inr ?_⟩
    · simp only [failedRuns, List.mem_cons, List.mem_singleton, List.not_mem_nil, or_false] at hr
      rcases hr with rfl | rfl | rfl | rfl <;>
        simp [setupEvents, cleanupEvents, cancelEvents, stepOfSite]
    · simp only [failedRuns, List.mem_cons, List.mem_singleton, List.not_mem_nil, or_false] at hr
      rcases hr with rfl | rfl | rfl | rfl
      · exact ⟨⟨207, .browserStart 30 (allocatorOptions env), some e⟩, e, .generatePDF, _,
          by simp, rfl, rfl, rfl, hres, by simp [setupEvents, cleanupEvents, cancelEvents]⟩
      · exact ⟨⟨208, .navigate ("file://" ++ tmp), some e⟩, e, .generatePDF, _,
          by simp, rfl, rfl, rfl, hres, by simp [setupEvents, cleanupEvents, cancelEvents]⟩
      · exact ⟨⟨209, .waitReady "body", some e⟩, e, .generatePDF, _,
          by simp, rfl, rfl, rfl, hres, by simp [setupEvents, cleanupEvents, cancelEvents]⟩
      · exact ⟨⟨212, .printToPDF printParams "", some e⟩, e, .generatePDF, _,
          by simp, rfl, rfl, rfl, hres, by simp [setupEvents, cleanupEvents, cancelEvents]⟩
  · refine ⟨_, hlog, by simp [setupEvents],
      by simp [setupEvents, cleanupEvents, cancelEvents, printedRun, stepOfSite], Or.inr
      ⟨⟨233, .writeFile out buf 0o644, some e⟩, e, .writePDFFile, _,
        by simp, rfl, rfl, rfl, hres,
        by simp [setupEvents, cleanupEvents, cancelEvents, printedRun]⟩⟩
  · exact ⟨_, hlog, by simp [setupEvents],
      by simp [setupEvents, cleanupEvents, cancelEvents, printedRun, stepOfSite], Or.inl
      ⟨hres, by simp [setupEvents, cleanupEvents, cancelEvents, printedRun]⟩⟩

theorem Error_wrapAll (cs : List String) (e : GoError) :
    (wrapAll cs e).Error = joinContext cs e.Error := by
  induction cs with
  | nil => rfl
  | cons c cs ih => simp [wrapAll, joinContext, Errorf, GoError.Error, ih]

theorem unwrapTimes_wrapAll (cs : List String) (e : GoError) :
    unwrapTimes cs.length (wrapAll cs e) = some e := by
  induction cs with
  | nil => rfl
  | cons c cs ih => simp [wrapAll, unwrapTimes, Errorf, GoError.Unwrap, ih]

theorem newEvents_record (w : World) (s : Nat) (c : Call) (e : Option GoError) :
    newEvents w (w.record s c e) = [⟨s, c, e⟩] := by
  simp [newEvents]

/-- C7: when `generateResume` returns an error, exactly one call has failed, and
the error is the error of that call wrapped in the context prefixes of its
stage (outermost first): its message is the prefixes and the message of the
cause joined by a colon and a space, and unwrapping once per prefix gives back
the cause itself.  Different stages have different prefixes. -/
theorem generateResume_error_wrapping (env : Env) (jsonPath templatePath outputPath : String)
    (w : World) (e : GoError)
    (h : (generateResume env jsonPath templatePath outputPath w).2 = some e) :
    (∃ ev ∈ newEvents w (generateResume env jsonPath templatePath outputPath w).1,
      ∃ cause stage, ev.err = some cause ∧ stageOfSite ev.site = some stage ∧
        (∀ x ∈ newEvents w (generateResume env jsonPath templatePath outputPath w).1,
          x.err ≠ none → x = ev) ∧
        e = wrapAll stage.context cause ∧
        e.Error = joinContext stage.context cause.Error ∧
        unwrapTimes stage.context.length e = some cause) ∧
    (∀ s s2 : Stage, s.context = s2.context → s = s2) := by
  refine ⟨?_, by intro s s2; cases s <;> cases s2 <;> simp [Stage.context]⟩
  have key : ∀ (ev : Event) (cause : GoError) (stage : Stage),
      ev ∈ newEvents w (generateResume env jsonPath templatePath outputPath w).1 →
      ev.err = some cause → stageOfSite ev.site = some stage →
      (∀ x ∈ newEvents w (generateResume env jsonPath templatePath outputPath w).1,
          x.err ≠ none → x = ev) →
      e = wrapAll stage.context cause →
      ∃ ev ∈ newEvents w (generateResume env jsonPath templatePath outputPath w).1,
      ∃ cause stage, ev.err = some cause ∧ stageOfSite ev.site = some stage ∧
        (∀ x ∈ newEvents w (generateResume env jsonPath templatePath outputPath w).1,
          x.err ≠ none → x = ev) ∧
        e = wrapAll stage.context cause ∧
        e.Error = joinContext stage.context cause.Error ∧
        unwrapTimes stage.context.length e = some cause := by
    intro ev cause stage hmem herr hst huniq he
    refine ⟨ev, hmem, cause, stage, herr, hst, huniq, he, ?_, ?_⟩
    · rw [he, Error_wrapAll]
    · rw [he, unwrapTimes_wrapAll]
  rcases generateResume_cases env jsonPath templatePath outputPath w with
    ⟨c, -, hG⟩ | ⟨data, c, -, -, hG⟩ | ⟨data, c, -, -, -, hG⟩ | ⟨data, text, c, -, -, -, -, hG⟩ |
    ⟨data, text, c, -, -, -, -, -, hG⟩ | ⟨data, text, html, -, -, -, -, -, hG⟩
  · rw [hG] at h key ⊢
    simp only [Option.some.injEq] at h
    subst h
    exact key ⟨131, .readFile jsonPath, some c⟩ c .readJSONFile (by simp [newEvents]) rfl rfl
      (by simp [newEvents]) rfl
  · rw [hG] at h key ⊢
    simp only [Option.some.injEq] at h
    subst h
    exact key ⟨138, .unmarshal data, some c⟩ c .parseJSON (by simp [newEvents]) rfl rfl
      (by simp [newEvents]) rfl
  · rw [hG] at h key ⊢
    simp only [Option.some.injEq] at h
    subst h
    exact key ⟨143, .readFile templatePath, some c⟩ c .readTemplateFile (by simp [newEvents])
      rfl rfl (by simp [newEvents]) rfl
  · rw [hG] at h key ⊢
    simp only [Option.some.injEq] at h
    subst h
    exact key ⟨149, .templateParse "resume" text, some c⟩ c .parseTemplate
      (by simp [newEvents]) rfl rfl (by simp [newEvents]) rfl
  · rw [hG] at h key ⊢
    simp only [Option.some.injEq] at h
    subst h
    exact key ⟨156, .templateExecute text (unmarshalResult env data Resume.zero).1, some c⟩ c
      .executeTemplate (by simp [newEvents]) rfl rfl (by simp [newEvents]) rfl
  · rw [hG] at h key ⊢
    obtain ⟨L, hlog, -, -, hsum⟩ := htmlToPDF_summary env html outputPath
      (loadedWorld w jsonPath templatePath data (unmarshalResult env data Resume.zero).1 text)
    rw [loadedWorld_log, List.append_assoc] at hlog
    have hnew := newEvents_eq hlog
    simp only [hnew] at key ⊢
    rcases hsum with ⟨hnone, -⟩ | ⟨ev, cause, stage, ctx, hmem, herr, hst, hctx, hres, huniq⟩
    · simp [hnone] at h
    · simp only [hres, Option.map_some', Option.some.injEq] at h
      subst h
      refine key ev cause stage (by simp [hmem]) herr hst ?_ (by rw [hctx]; rfl)
      intro x hx hxe
      simp only [List.mem_append] at hx
      rcases hx with hx | hx
      · simp [loadedEvents] at hx
        rcases hx with rfl | rfl | rfl | rfl | rfl <;> simp at hxe
      · exact huniq x hx hxe

theorem stepPerformed_append (s : Step) (l1 l2 : List Event) :
    stepPerformed s (l1 ++ l2) = (stepPerformed s l1 || stepPerformed s l2) := by
  simp [stepPerformed]

theorem stepFailed_append (s : Step) (l1 l2 : List Event) :
    stepFailed s (l1 ++ l2) = (stepFailed s l1 || stepFailed s l2) := by
  simp [stepFailed]

theorem stepPerformed_export {L : List Event} (hne : L ≠ [])
    (hL : ∀ ev ∈ L, stepOfSite ev.site = some .htmlToPDF) (s : Step) :
    stepPerformed s L = decide (s = .htmlToPDF) := by
  rw [Bool.eq_iff_iff]
  simp only [stepPerformed, List.any_eq_true, beq_iff_eq, decide_eq_true_eq]
  constructor
  · rintro ⟨ev, hev, h⟩
    rw [hL ev hev] at h
    exact (Option.some.inj h).symm
  · rintro rfl
    obtain ⟨ev, hev⟩ := List.exists_mem_of_ne_nil L hne
    exact ⟨ev, hev, hL ev hev⟩

theorem stepFailed_export {L : List Event}
    (hL : ∀ ev ∈ L, stepOfSite ev.site = some .htmlToPDF) (s : Step) :
    stepFailed s L = (decide (s = .htmlToPDF) && L.any (fun ev => ev.err.isSome)) := by
  rw [Bool.eq_iff_iff]
  simp only [stepFailed, List.any_eq_true, Bool.and_eq_true, beq_iff_eq, decide_eq_true_eq]
  constructor
  · rintro ⟨ev, hev, h, he⟩
    rw [hL ev hev] at h
    exact ⟨(Option.some.inj h).symm, ev, hev, he⟩
  · rintro ⟨rfl, ev, hev, he⟩
    exact ⟨ev, hev, hL ev hev, he⟩

theorem stepPerformed_cons (s : Step) (ev : Event) (l : List Event) :
    stepPerformed s (ev :: l) = (stepOfSite ev.site == some s || stepPerformed s l) := by
  simp [stepPerformed]

theorem stepFailed_cons (s : Step) (ev : Event) (l : List Event) :
    stepFailed s (ev :: l) =
      ((stepOfSite ev.site == some s && ev.err.isSome) || stepFailed s l) := by
  simp [stepFailed]

theorem stepPerformed_nil (s : Step) : stepPerformed s [] = false := rfl

theorem stepFailed_nil (s : Step) : stepFailed s [] = false := rfl

theorem stepOfSite_131 : stepOfSite 131 = some .readJSON := rfl

theorem stepOfSite_138 : stepOfSite 138 = some .parseJSON := rfl

theorem stepOfSite_143 : stepOfSite 143 = some .readTemplate := rfl

theorem stepOfSite_149 : stepOfSite 149 = some .parseTemplate := rfl

theorem stepOfSite_156 : stepOfSite 156 = some .executeTemplate := rfl

theorem stepOrder_readJSON (j t : String) (c : GoError)
    (res : Option GoError) (hres : res ≠ none) :
    StepOrder j t
      [⟨131, .readFile j, some c⟩] res := by
  unfold StepOrder
  simp only [stepPerformed_cons, stepFailed_cons, stepPerformed_nil, stepFailed_nil,
    stepOfSite_131, stepOfSite_138, stepOfSite_143, stepOfSite_149, stepOfSite_156,
    Option.isSome_some, Option.isSome_none]
  refine ⟨by simp [stepOfSite, Step.index], by simp [stepOfSite],
    by intro s s2; cases s <;> cases s2 <;> decide,
    by intro s s2; cases s <;> cases s2 <;> decide, ?_, ?_⟩
  · simp only [hres, not_false_eq_true, iff_true, ne_eq]
    exact ⟨.readJSON, by decide⟩
  · simp only [hres, false_iff, not_forall]
    exact ⟨.readJSON, by decide⟩

theorem stepOrder_parseJSON (j t : String) (data : String) (c : GoError)
    (res : Option GoError) (hres : res ≠ none) :
    StepOrder j t
      [⟨131, .readFile j, none⟩, ⟨138, .unmarshal data, some c⟩] res := by
  unfold StepOrder
  simp only [stepPerformed_cons, stepFailed_cons, stepPerformed_nil, stepFailed_nil,
    stepOfSite_131, stepOfSite_138, stepOfSite_143, stepOfSite_149, stepOfSite_156,
    Option.isSome_some, Option.isSome_none]
  refine ⟨by simp [stepOfSite, Step.index], by simp [stepOfSite],
    by intro s s2; cases s <;> cases s2 <;> decide,
    by intro s s2; cases s <;> cases s2 <;> decide, ?_, ?_⟩
  · simp only [hres, not_false_eq_true, iff_true, ne_eq]
    exact ⟨.parseJSON, by decide⟩
  · simp only [hres, false_iff, not_forall]
    exact ⟨.parseJSON, by decide⟩

theorem stepOrder_readTemplate (j t : String) (data : String) (c : GoError)
    (res : Option GoError) (hres : res ≠ none) :
    StepOrder j t
      [⟨131, .readFile j, none⟩, ⟨138, .unmarshal data, none⟩, ⟨143, .readFile t, some c⟩] res := by
  unfold StepOrder
  simp only [stepPerformed_cons, stepFailed_cons, stepPerformed_nil, stepFailed_nil,
    stepOfSite_131, stepOfSite_138, stepOfSite_143, stepOfSite_149, stepOfSite_156,
    Option.isSome_some, Option.isSome_none]
  refine ⟨by simp [stepOfSite, Step.index], by simp [stepOfSite],
    by intro s s2; cases s <;> cases s2 <;> decide,
    by intro s s2; cases s <;> cases s2 <;> decide, ?_, ?_⟩
  · simp only [hres, not_false_eq_true, iff_true, ne_eq]
    exact ⟨.readTemplate, by decide⟩
  · simp only [hres, false_iff, not_forall]
    exact ⟨.readTemplate, by decide⟩

theorem stepOrder_parseTemplate (j t : String) (data text : String) (c : GoError)
    (res : Option GoError) (hres : res ≠ none) :
    StepOrder j t
      [⟨131, .readFile j, none⟩, ⟨138, .unmarshal data, none⟩, ⟨143, .readFile t, none⟩,
        ⟨149, .templateParse "resume" text, some c⟩] res := by
  unfold StepOrder
  simp only [stepPerformed_cons, stepFailed_cons, stepPerformed_nil, stepFailed_nil,
    stepOfSite_131, stepOfSite_138, stepOfSite_143, stepOfSite_149, stepOfSite_156,
    Option.isSome_some, Option.isSome_none]
  refine ⟨by simp [stepOfSite, Step.index], by simp [stepOfSite],
    by intro s s2; cases s <;> cases s2 <;> decide,
    by intro s s2; cases s <;> cases s2 <;> decide, ?_, ?_⟩
  · simp only [hres, not_false_eq_true, iff_true, ne_eq]
    exact ⟨.parseTemplate, by decide⟩
  · simp only [hres, false_iff, not_forall]
    exact ⟨.parseTemplate, by decide⟩

theorem stepOrder_executeTemplate (j t : String) (data text : String) (resume : Resume) (c : GoError)
    (res : Option GoError) (hres : res ≠ none) :
    StepOrder j t
      [⟨131, .readFile j, none⟩, ⟨138, .unmarshal data, none⟩, ⟨143, .readFile t, none⟩,
        ⟨149, .templateParse "resume" text, none⟩,
        ⟨156, .templateExecute text resume, some c⟩] res := by
  unfold StepOrder
  simp only [stepPerformed_cons, stepFailed_cons, stepPerformed_nil, stepFailed_nil,
    stepOfSite_131, stepOfSite_138, stepOfSite_143, stepOfSite_149, stepOfSite_156,
    Option.isSome_some, Option.isSome_none]
  refine ⟨by simp [stepOfSite, Step.index], by simp [stepOfSite],
    by intro s s2; cases s <;> cases s2 <;> decide,
    by intro s s2; cases s <;> cases s2 <;> decide, ?_, ?_⟩
  · simp only [hres, not_false_eq_true, iff_true, ne_eq]
    exact ⟨.executeTemplate, by decide⟩
  · simp only [hres, false_iff, not_forall]
    exact ⟨.executeTemplate, by decide⟩

theorem stepOrder_export (j t data text : String) (resume : Resume) (L : List Event)
    (res : Option GoError) (hne : L ≠ [])
    (hL : ∀ ev ∈ L, stepOfSite ev.site = some .htmlToPDF)
    (hres : res = none ↔ ∀ ev ∈ L, ev.err = none) :
    StepOrder j t (loadedEvents j t data resume text ++ L) res := by
  have hfail : L.any (fun ev => ev.err.isSome) = !res.isNone := by
    rw [Bool.eq_iff_iff]
    simp only [List.any_eq_true, Bool.not_eq_true', Option.isNone_eq_false_iff,
      Option.isSome_iff_ne_none]
    constructor
    · rintro ⟨ev, hev, he⟩ hn
      exact he ((hres.1 hn) ev hev)
    · intro hn
      by_contra hcon
      push_neg at hcon
      exact hn (hres.2 hcon)
  have hP : ∀ s, stepPerformed s (loadedEvents j t data resume text ++ L) = true := by
    intro s
    rw [stepPerformed_append, stepPerformed_export hne hL]
    cases s <;> simp [stepPerformed, loadedEvents, stepOfSite]
  have hF : ∀ s, stepFailed s (loadedEvents j t data resume text ++ L) =
      (decide (s = .htmlToPDF) && !res.isNone) := by
    intro s
    rw [stepFailed_append, stepFailed_export hL, hfail]
    cases s <;> simp [stepFailed, loadedEvents, stepOfSite]
  refine ⟨?_, ?_, ?_, ?_, ?_, ?_⟩
  · rw [List.pairwise_append]
    refine ⟨by simp [loadedEvents, stepOfSite, Step.index], ?_, ?_⟩
    · refine List.Pairwise.imp_of_mem ?_ (List.pairwise_of_forall (R := fun _ _ => True)
        (fun _ _ => trivial))
      intro a b ha hb _
      exact ⟨_, _, hL a ha, hL b hb, Or.inr ⟨rfl, rfl⟩⟩
    · intro a ha b hb
      simp only [loadedEvents, List.mem_cons, List.mem_singleton, List.not_mem_nil,
        or_false] at ha
      rcases ha with rfl | rfl | rfl | rfl | rfl <;>
        exact ⟨_, _, rfl, hL b hb, Or.inl (by simp [Step.index])⟩
  · intro ev hev
    rw [List.mem_append] at hev
    rcases hev with hev | hev
    · simp only [loadedEvents, List.mem_cons, List.mem_singleton, List.not_mem_nil,
        or_false] at hev
      rcases hev with rfl | rfl | rfl | rfl | rfl <;> simp [stepOfSite]
    · have h := hL ev hev
      refine ⟨by simp [h], ?_, ?_⟩
      · intro h131
        rw [h131] at h
        simp [stepOfSite] at h
      · intro h143
        rw [h143] at h
        simp [stepOfSite] at h
  · intro s s2 hlt _
    refine ⟨hP s, ?_⟩
    rw [hF]
    cases s <;> cases s2 <;> simp [Step.index] at hlt ⊢
  · intro s s2 hlt hf
    rw [hF] at hf
    cases s <;> cases s2 <;> simp [Step.index] at hlt hf
  · constructor
    · rintro ⟨s, hs⟩
      rw [hF] at hs
      intro hn
      simp [hn] at hs
    · intro hn
      refine ⟨.htmlToPDF, ?_⟩
      rw [hF]
      cases res <;> simp at hn ⊢
  · constructor
    · intro hn s
      refine ⟨hP s, ?_⟩
      rw [hF]
      simp [hn]
    · intro h
      have := (h .htmlToPDF).2
      rw [hF] at this
      cases res <;> simp at this ⊢

/-- C1: the calls of `generateResume` are made in the order of its six steps
(read JSON file, parse JSON, read template file, parse template, execute
template, `htmlToPDF`), each of the first five steps being one call; a step is
performed only when every earlier step was performed and did not fail; once a
step has failed no later step is performed and the result is an error; and the
result is nil exactly when all six steps were performed and none failed. -/
theorem generateResume_step_order (env : Env) (jsonPath templatePath outputPath : String)
    (w : World) :
    (generateResume env jsonPath templatePath outputPath w).1.log =
      w.log ++ newEvents w (generateResume env jsonPath templatePath outputPath w).1 ∧
    (newEvents w (generateResume env jsonPath templatePath outputPath w).1).Pairwise
      (fun a b => ∃ s s2, stepOfSite a.site = some s ∧ stepOfSite b.site = some s2 ∧
        (s.index < s2.index ∨ (s = .htmlToPDF ∧ s2 = .htmlToPDF))) ∧
    (∀ ev ∈ newEvents w (generateResume env jsonPath templatePath outputPath w).1,
      stepOfSite ev.site ≠ none ∧ (ev.site = 131 → ev.call = .readFile jsonPath) ∧
      (ev.site = 143 → ev.call = .readFile templatePath)) ∧
    (∀ s s2 : Step, s.index < s2.index →
      stepPerformed s2 (newEvents w (generateResume env jsonPath templatePath outputPath w).1)
        = true →
      stepPerformed s (newEvents w (generateResume env jsonPath templatePath outputPath w).1)
        = true ∧
      stepFailed s (newEvents w (generateResume env jsonPath templatePath outputPath w).1)
        = false) ∧
    (∀ s s2 : Step, s.index < s2.index →
      stepFailed s (newEvents w (generateResume env jsonPath templatePath outputPath w).1)
        = true →
      stepPerformed s2 (newEvents w (generateResume env jsonPath templatePath outputPath w).1)
        = false) ∧
    ((∃ s, stepFailed s (newEvents w (generateResume env jsonPath templatePath outputPath w).1)
        = true) ↔ (generateResume env jsonPath templatePath outputPath w).2 ≠ none) ∧
    ((generateResume env jsonPath templatePath outputPath w).2 = none ↔
      ∀ s : Step,
        stepPerformed s (newEvents w (generateResume env jsonPath templatePath outputPath w).1)
          = true ∧
        stepFailed s (newEvents w (generateResume env jsonPath templatePath outputPath w).1)
          = false) := by
  suffices hS : ∃ L,
      (generateResume env jsonPath templatePath outputPath w).1.log = w.log ++ L ∧
      StepOrder jsonPath templatePath L
        (generateResume env jsonPath templatePath outputPath w).2 by
    obtain ⟨L, hlog, hS⟩ := hS
    rw [newEvents_eq hlog]
    exact ⟨hlog, hS⟩
  rcases generateResume_cases env jsonPath templatePath outputPath w with
    ⟨c, -, hG⟩ | ⟨data, c, -, -, hG⟩ | ⟨data, c, -, -, -, hG⟩ | ⟨data, text, c, -, -, -, -, hG⟩ |
    ⟨data, text, c, -, -, -, -, -, hG⟩ | ⟨data, text, html, -, -, -, -, -, hG⟩
  · refine ⟨_, ?_, stepOrder_readJSON _ _ c _ (by rw [hG]; simp)⟩
    rw [hG]; simp
  · refine ⟨_, ?_, stepOrder_parseJSON _ _ data c _ (by rw [hG]; simp)⟩
    rw [hG]; simp
  · refine ⟨_, ?_, stepOrder_readTemplate _ _ data c _ (by rw [hG]; simp)⟩
    rw [hG]; simp
  · refine ⟨_, ?_, stepOrder_parseTemplate _ _ data text c _ (by rw [hG]; simp)⟩
    rw [hG]; simp
  · refine ⟨_, ?_, stepOrder_executeTemplate _ _ data text
      (unmarshalResult env data Resume.zero).1 c _ (by rw [hG]; simp)⟩
    rw [hG]; simp
  · obtain ⟨L, hlog, hne, hL, hsum⟩ := htmlToPDF_summary env html outputPath
      (loadedWorld w jsonPath templatePath data (unmarshalResult env data Resume.zero).1 text)
    rw [loadedWorld_log, List.append_assoc] at hlog
    refine ⟨_, by rw [hG]; exact hlog, stepOrder_export _ _ _ _ _ L _ hne hL ?_⟩
    rw [hG]
    rcases hsum with ⟨hnone, hall⟩ | ⟨ev, cause, stage, ctx, hmem, herr, -, -, hres, -⟩
    · simp only [hnone, Option.map_none']
      exact ⟨fun _ => hall, fun _ => trivial⟩
    · simp only [hres, Option.map_some', reduceCtorEq, false_iff, not_forall]
      exact ⟨ev, hmem, by simp [herr]⟩

theorem readFileResult_missing (env : Env) (fs : FS) (path : String)
    (h : fs.files path = none) :
    ∃ op msg, readFileResult env fs path = .error (.pathError op path msg) ∧
      (env.readFault fs path = none → fs.dirs path = false →
        op = "open" ∧ msg = "no such file or directory") := by
  unfold readFileResult
  rcases hf : env.readFault fs path with _ | ⟨op, errno⟩
  · by_cases hd : fs.dirs path = true
    · exact ⟨"read", "is a directory", by simp [h, hd], by simp [hd]⟩
    · exact ⟨"open", "no such file or directory", by simp [h, hd], by simp⟩
  · exact ⟨op, errno, by simp, by simp⟩

/-- C2: when the JSON file can be read and its bytes are not valid JSON,
`generateResume` returns the syntax error wrapped as "failed to parse JSON",
after two calls (the read and the parse) and with the file system exactly as it
was; and `main`, started with that file as `-json`, prints the error to standard
error, exits with code 1 and leaves the file system as it was. -/
theorem generateResume_malformed_json (env : Env) (jsonPath templatePath outputPath : String)
    (w : World) (data : String) (e : GoError)
    (hread : readFileResult env w.fs jsonPath = .ok data)
    (hbad : env.checkValid data = .error e) :
    (generateResume env jsonPath templatePath outputPath w).2 =
      some (Errorf "failed to parse JSON" e) ∧
    (Errorf "failed to parse JSON" e).Error = "failed to parse JSON" ++ ": " ++ e.Error ∧
    (generateResume env jsonPath templatePath outputPath w).1.fs = w.fs ∧
    newEvents w (generateResume env jsonPath templatePath outputPath w).1 =
      [⟨131, .readFile jsonPath, none⟩, ⟨138, .unmarshal data, some e⟩] ∧
    (∀ arg0 args, env.flagParse args = .parsed ⟨jsonPath, templatePath, outputPath, false⟩ →
      jsonPath ≠ "" →
      (main env arg0 args w).2 = 1 ∧ (main env arg0 args w).1.fs = w.fs ∧
      (main env arg0 args w).1.stdout = w.stdout ∧
      (main env arg0 args w).1.stderr =
        w.stderr ++ [env.logStamp ++ ("failed to parse JSON" ++ ": " ++ e.Error) ++ "\n"]) := by
  have hu : unmarshalResult env data Resume.zero = (Resume.zero, some e) := by
    simp [unmarshalResult, hbad]
  have hG : generateResume env jsonPath templatePath outputPath w =
      ((w.record 131 (.readFile jsonPath) none).record 138 (.unmarshal data) (some e),
        some (Errorf "failed to parse JSON" e)) := by
    simp [generateResume, ReadFile, Unmarshal, hread, hu, errOf]
  refine ⟨by rw [hG], rfl, by rw [hG]; rfl, by rw [hG]; simp [newEvents], ?_⟩
  intro arg0 args hflags hne
  simp [main, hflags, hne, hG, World.eprint, Errorf, GoError.Error]

/-- C3: when the JSON file is read and parsed and no file exists at the template
path, `generateResume` returns a path error carrying the template path, wrapped
as "failed to read template file"; its message contains the template path; it
is "open <path>: no such file or directory" when nothing else is wrong with the
path; `htmlToPDF` is not called and the file system is exactly as it was. -/
theorem generateResume_missing_template (env : Env)
    (jsonPath templatePath outputPath : String) (w : World) (data : String)
    (hread : readFileResult env w.fs jsonPath = .ok data)
    (hparse : (unmarshalResult env data Resume.zero).2 = none)
    (hmissing : w.fs.files templatePath = none) :
    ∃ op msg,
      (generateResume env jsonPath templatePath outputPath w).2 =
        some (Errorf "failed to read template file" (.pathError op templatePath msg)) ∧
      (Errorf "failed to read template file" (.pathError op templatePath msg)).Error =
        "failed to read template file" ++ ": " ++ (op ++ " " ++ templatePath ++ ": " ++ msg) ∧
      (env.readFault w.fs templatePath = none → w.fs.dirs templatePath = false →
        op = "open" ∧ msg = "no such file or directory") ∧
      (generateResume env jsonPath templatePath outputPath w).1.fs = w.fs ∧
      newEvents w (generateResume env jsonPath templatePath outputPath w).1 =
        [⟨131, .readFile jsonPath, none⟩, ⟨138, .unmarshal data, none⟩,
          ⟨143, .readFile templatePath, some (.pathError op templatePath msg)⟩] ∧
      stepPerformed .htmlToPDF
        (newEvents w (generateResume env jsonPath templatePath outputPath w).1) = false := by
  obtain ⟨op, msg, hr, hplain⟩ := readFileResult_missing env w.fs templatePath hmissing
  have hG : generateResume env jsonPath templatePath outputPath w =
      (((w.record 131 (.readFile jsonPath) none).record 138 (.unmarshal data) none).record 143
        (.readFile templatePath) (some (.pathError op templatePath msg)),
        some (Errorf "failed to read template file" (.pathError op templatePath msg))) := by
    simp [generateResume, ReadFile, Unmarshal, hread, hparse, hr, errOf]
  refine ⟨op, msg, by rw [hG], rfl, hplain, by rw [hG]; rfl, by rw [hG]; simp [newEvents], ?_⟩
  rw [hG]
  simp [newEvents, stepPerformed, stepOfSite]

/-- C4 (as amended): when `-json` is omitted and `-help` is not set, `main`
writes to standard error the error line and then the usage text (the title,
the usage line and the example line with the program name, and between them the
flag defaults as the `flag` package prints them), writes nothing to standard
output, and exits with code 1, without any library call on files and with the
file system as it was. -/
theorem main_requires_json (env : Env) (arg0 : String) (args : List String) (w : World)
    (f : Flags) (hflags : env.flagParse args = .parsed f) (hjson : f.jsonPath = "")
    (hhelp : f.help = false) :
    (main env arg0 args w).2 = 1 ∧
    (main env arg0 args w).1.stderr =
      w.stderr ++
        ["Error: JSON file path is required\n\n",
         "Gen Resume - Generate professional PDF resumes from JSON data\n\n",
         "Usage:\n",
         "  " ++ arg0 ++ " -json <path> [-template <path>] [-output <path>]\n\n",
         "Options:\n",
         env.printDefaults,
         "\nExample:\n",
         "  " ++ arg0 ++
           " -json resume.json -template template.html -output john_doe_resume.pdf\n"] ∧
    (main env arg0 args w).1.stdout = w.stdout ∧
    (main env arg0 args w).1.log = w.log ∧
    (main env arg0 args w).1.fs = w.fs := by
  simp [main, hflags, hjson, hhelp, World.eprint, usage]

/-- C10: when `-help` is set, whatever the other flags are, `main` writes the
usage text to standard error (the title, the usage line and the example line
with the program name, and between them the flag defaults as the `flag` package
prints them), writes nothing to standard output, and exits with code 0, without
any library call on files and with the file system as it was. -/
theorem main_help (env : Env) (arg0 : String) (args : List String) (w : World)
    (f : Flags) (hflags : env.flagParse args = .parsed f) (hhelp : f.help = true) :
    (main env arg0 args w).2 = 0 ∧
    (main env arg0 args w).1.stderr =
      w.stderr ++
        ["Gen Resume - Generate professional PDF resumes from JSON data\n\n",
         "Usage:\n",
         "  " ++ arg0 ++ " -json <path> [-template <path>] [-output <path>]\n\n",
         "Options:\n",
         env.printDefaults,
         "\nExample:\n",
         "  " ++ arg0 ++
           " -json resume.json -template template.html -output john_doe_resume.pdf\n"] ∧
    (main env arg0 args w).1.stdout = w.stdout ∧
    (main env arg0 args w).1.log = w.log ∧
    (main env arg0 args w).1.fs = w.fs := by
  simp [main, hflags, hhelp, World.eprint, usage]

/-- C4 (counterexample): on the command line `-help`, where `-json` is omitted,
`main` exits with code 0, not 1. -/
theorem main_json_omitted_with_help :
    sampleEnv.flagParse ["-help"] =
      .parsed { jsonPath := "", templatePath := "template.html", outputPath := "resume.pdf",
                help := true } ∧
    (main sampleEnv "gen-resume" ["-help"] sampleWorld).2 = 0 ∧
    (main sampleEnv "gen-resume" ["-help"] sampleWorld).2 ≠ 1 := by
  refine ⟨rfl, rfl, by decide⟩

theorem findName_some {p : String → Bool} {names : List String} {i k : Nat}
    (h : findName p names i = some k) :
    i ≤ k ∧ ∃ n, names[k - i]? = some n ∧ p n = true := by
  induction names generalizing i with
  | nil => simp [findName] at h
  | cons n ns ih =>
    simp only [findName] at h
    split at h
    · rename_i hp
      simp only [Option.some.injEq] at h
      subst h
      exact ⟨le_refl _, n, by simp, hp⟩
    · obtain ⟨hle, m, hm, hpm⟩ := ih h
      refine ⟨by omega, m, ?_, hpm⟩
      have : k - i = (k - (i + 1)) + 1 := by omega
      rw [this]
      simpa using hm

theorem findName_none {p : String → Bool} {names : List String} {i : Nat} :
    findName p names i = none ↔ ∀ n ∈ names, p n = false := by
  induction names generalizing i with
  | nil => simp [findName]
  | cons n ns ih =>
    simp only [findName, List.mem_cons, forall_eq_or_imp]
    split
    · rename_i hp
      simp [hp]
    · rename_i hp
      simp [hp, ih]

theorem fieldIndex_some {names : List String} {key : String} {i : Nat}
    (h : fieldIndex names key = some i) :
    ∃ n, names[i]? = some n ∧ foldName n = foldName key := by
  unfold fieldIndex at h
  split at h
  · rename_i k hk
    simp only [Option.some.injEq] at h
    subst h
    obtain ⟨-, n, hn, hp⟩ := findName_some hk
    refine ⟨n, by simpa using hn, ?_⟩
    simp only [beq_iff_eq] at hp
    rw [hp]
  · obtain ⟨-, n, hn, hp⟩ := findName_some h
    refine ⟨n, by simpa using hn, ?_⟩
    simpa using hp

theorem fieldIndex_none {names : List String} {key : String}
    (h : ∀ n ∈ names, foldName n ≠ foldName key) : fieldIndex names key = none := by
  unfold fieldIndex
  have h1 : findName (fun n => n == key) names 0 = none := by
    rw [findName_none]
    intro n hn
    simp only [beq_eq_false_iff_ne, ne_eq]
    intro hnk
    exact h n hn (by rw [hnk])
  rw [h1]
  rw [findName_none]
  intro n hn
  simpa using h n hn

theorem decodeMembers_skip {α : Type} (names : List String)
    (set : Nat → JSON → α → α × Option GoError) (k : String) (v : JSON)
    (hk : fieldIndex names k = none) (before after : List (String × JSON)) (r : α)
    (saved : Option GoError) :
    decodeMembers names set (before ++ (k, v) :: after) r saved =
      decodeMembers names set (before ++ after) r saved := by
  induction before generalizing r saved with
  | nil => simp [decodeMembers, hk]
  | cons m ms ih =>
    obtain ⟨k2, v2⟩ := m
    simp only [List.cons_append, decodeMembers]
    split
    · exact ih _ _
    · exact ih _ _

theorem setField_fieldEmpty (grow : String → Nat → Nat) (i j : Nat) (v : JSON) (r : Resume)
    (hne : j ≠ i) (h : Resume.fieldEmpty i r) :
    Resume.fieldEmpty i (Resume.setField grow j v r).1 := by
  unfold Resume.setField
  split <;> first
    | exact h
    | (unfold Resume.fieldEmpty at h ⊢
       split at h <;> first | exact h | trivial)

theorem decodeMembers_fieldEmpty (grow : String → Nat → Nat) (i : Nat)
    (members : List (String × JSON))
    (hm : ∀ m ∈ members, fieldIndex Resume.keys m.1 ≠ some i) (r : Resume)
    (saved : Option GoError) (h : Resume.fieldEmpty i r) :
    Resume.fieldEmpty i (decodeMembers Resume.keys (Resume.setField grow) members r saved).1 := by
  induction members generalizing r saved with
  | nil => simpa [decodeMembers] using h
  | cons m ms ih =>
    obtain ⟨k, v⟩ := m
    have hk : fieldIndex Resume.keys k ≠ some i := hm (k, v) (by simp)
    have hms : ∀ m ∈ ms, fieldIndex Resume.keys m.1 ≠ some i :=
      fun m hmem => hm m (by simp [hmem])
    simp only [decodeMembers]
    split
    · exact ih hms _ _ h
    · rename_i j hj
      have hne : j ≠ i := by
        rintro rfl
        exact hk hj
      exact ih hms _ _ (setField_fieldEmpty grow i j v r hne h)

theorem decodeMembers_unmatched (grow : String → Nat → Nat) (members : List (String × JSON))
    (hm : ∀ m ∈ members, fieldIndex Resume.keys m.1 = none) (r : Resume)
    (saved : Option GoError) :
    decodeMembers Resume.keys (Resume.setField grow) members r saved = (r, saved) := by
  induction members generalizing r saved with
  | nil => rfl
  | cons m ms ih =>
    obtain ⟨k, v⟩ := m
    have hk : fieldIndex Resume.keys k = none := hm (k, v) (by simp)
    simp only [decodeMembers, hk]
    exact ih (fun m hmem => hm m (by simp [hmem])) _ _

theorem fieldEmpty_zero (i : Nat) : Resume.fieldEmpty i Resume.zero := by
  unfold Resume.fieldEmpty
  split <;> first | rfl | trivial

/-- C8 (as amended): loading a JSON object into the record matches keys to the
declared keys exactly or, failing that, ignoring letter case.  An object none
of whose keys matches a declared key loads without error into the record with
every field empty; a field that no key of the object matches is the empty string
or the empty list; and a member whose key matches no declared key is ignored:
the record and the error are those of the object without that member. -/
theorem decodeResume_unmatched_keys (grow : String → Nat → Nat)
    (members : List (String × JSON)) :
    ((∀ m ∈ members, ∀ name ∈ Resume.keys, foldName name ≠ foldName m.1) →
      decodeResume grow (.object members) Resume.zero = (Resume.zero, none)) ∧
    (∀ i name, Resume.keys[i]? = some name →
      (∀ m ∈ members, foldName name ≠ foldName m.1) →
      Resume.fieldEmpty i (decodeResume grow (.object members) Resume.zero).1) ∧
    (∀ (before after : List (String × JSON)) (key : String) (v : JSON) (resume : Resume),
      (∀ name ∈ Resume.keys, foldName name ≠ foldName key) →
      decodeResume grow (.object (before ++ (key, v) :: after)) resume =
        decodeResume grow (.object (before ++ after)) resume) := by
  refine ⟨?_, ?_, ?_⟩
  · intro h
    simp only [decodeResume, storeStruct]
    exact decodeMembers_unmatched grow members (fun m hm => fieldIndex_none (h m hm)) _ _
  · intro i name hname h
    simp only [decodeResume, storeStruct]
    refine decodeMembers_fieldEmpty grow i members ?_ _ _ (fieldEmpty_zero i)
    intro m hm hidx
    obtain ⟨n, hn, hfold⟩ := fieldIndex_some hidx
    rw [hname] at hn
    simp only [Option.some.injEq] at hn
    subst hn
    exact h m hm hfold
  · intro before after key v resume h
    simp only [decodeResume, storeStruct]
    exact decodeMembers_skip _ _ key v (fieldIndex_none h) before after _ _

/-- C8 (counterexample): the key `NAME` is not a declared key and the key `name`
is absent from the object, yet the object loads with the field `Name` set, and
not as the object without that member does. -/
theorem decodeResume_key_case :
    "NAME" ∉ Resume.keys ∧
    (∀ m ∈ [("NAME", JSON.string "x")], m.1 ≠ "name") ∧
    (decodeResume sampleEnv.sliceCap (.object [("NAME", .string "x")]) Resume.zero).1.Name = "x" ∧
    decodeResume sampleEnv.sliceCap (.object [("NAME", .string "x")]) Resume.zero ≠
      decodeResume sampleEnv.sliceCap (.object []) Resume.zero := by
  decide

/-! ## The theorems at the sample run -/

theorem generateResume_malformed_json_witness :
    readFileResult sampleEnv sampleWorld.fs "bad.json" = .ok "\x7b" ∧
    sampleEnv.checkValid "\x7b" = .error (.external "unexpected end of JSON input") ∧
    (generateResume sampleEnv "bad.json" "template.html" "resume.pdf" sampleWorld).2 =
      some (Errorf "failed to parse JSON" (.external "unexpected end of JSON input")) ∧
    (main sampleEnv "gen-resume" ["-json", "bad.json"] sampleWorld).2 = 1 :=
  ⟨rfl, rfl,
    (generateResume_malformed_json sampleEnv "bad.json" "template.html" "resume.pdf"
      sampleWorld "\x7b" (.external "unexpected end of JSON input") rfl rfl).1,
    ((generateResume_malformed_json sampleEnv "bad.json" "template.html" "resume.pdf"
      sampleWorld "\x7b" (.external "unexpected end of JSON input") rfl rfl).2.2.2.2
      "gen-resume" ["-json", "bad.json"] rfl (by decide)).1⟩

theorem generateResume_missing_template_witness :
    readFileResult sampleEnv sampleWorld.fs "resume.json" = .ok "\x7b\x7d" ∧
    (unmarshalResult sampleEnv "\x7b\x7d" Resume.zero).2 = none ∧
    sampleWorld.fs.files "missing.html" = none ∧
    ∃ op msg,
      (generateResume sampleEnv "resume.json" "missing.html" "resume.pdf" sampleWorld).2 =
        some (Errorf "failed to read template file" (.pathError op "missing.html" msg)) :=
  ⟨rfl, rfl, rfl,
    (generateResume_missing_template sampleEnv "resume.json" "missing.html" "resume.pdf"
      sampleWorld "\x7b\x7d" rfl rfl rfl).elim
      (fun op h => h.elim (fun msg hm => ⟨op, msg, hm.1⟩))⟩

theorem main_requires_json_witness :
    sampleEnv.flagParse ["-template", "cv.html"] =
      .parsed { jsonPath := "", templatePath := "cv.html", outputPath := "resume.pdf",
                help := false } ∧
    (main sampleEnv "gen-resume" ["-template", "cv.html"] sampleWorld).2 = 1 :=
  ⟨rfl, (main_requires_json sampleEnv "gen-resume" ["-template", "cv.html"] sampleWorld
    { jsonPath := "", templatePath := "cv.html", outputPath := "resume.pdf", help := false }
    rfl rfl rfl).1⟩

theorem main_help_witness :
    sampleEnv.flagParse ["-help", "-json", "resume.json"] =
      .parsed { jsonPath := "resume.json", templatePath := "template.html",
                outputPath := "resume.pdf", help := true } ∧
    (main sampleEnv "gen-resume" ["-help", "-json", "resume.json"] sampleWorld).2 = 0 :=
  ⟨rfl, (main_help sampleEnv "gen-resume" ["-help", "-json", "resume.json"] sampleWorld
    { jsonPath := "resume.json", templatePath := "template.html", outputPath := "resume.pdf",
      help := true } rfl rfl).1⟩

theorem htmlToPDF_removes_temp_file_witness :
    (⟨176, .tempFile "" "resume-*.html" "/tmp/resume-123456.html", none⟩ : Event) ∈
      newEvents sampleWorld (htmlToPDF sampleEnv "<h1>Resume</h1>" "resume.pdf" sampleWorld).1 ∧
    (∃ r, (newEvents sampleWorld
        (htmlToPDF sampleEnv "<h1>Resume</h1>" "resume.pdf" sampleWorld).1).getLast? =
        some ⟨180, .remove "/tmp/resume-123456.html" r, none⟩ ∧
      (r = none → (htmlToPDF sampleEnv "<h1>Resume</h1>" "resume.pdf" sampleWorld).1.fs.files
        "/tmp/resume-123456.html" = none)) ∧
    (newEvents sampleWorld
        (htmlToPDF sampleEnv "<h1>Resume</h1>" "resume.pdf" sampleWorld).1).getLast? =
      some ⟨180, .remove "/tmp/resume-123456.html" none, none⟩ ∧
    (htmlToPDF sampleEnv "<h1>Resume</h1>" "resume.pdf" sampleWorld).1.fs.files
      "/tmp/resume-123456.html" = none :=
  ⟨by decide,
    htmlToPDF_removes_temp_file sampleEnv "<h1>Resume</h1>" "resume.pdf" sampleWorld
      ⟨176, .tempFile "" "resume-*.html" "/tmp/resume-123456.html", none⟩
      "/tmp/resume-123456.html" (by decide) rfl rfl, by decide, rfl⟩

theorem generateResume_error_wrapping_witness :
    (generateResume sampleEnv "bad.json" "template.html" "resume.pdf" sampleWorld).2 =
      some (Errorf "failed to parse JSON" (.external "unexpected end of JSON input")) ∧
    ∃ ev ∈ newEvents sampleWorld
        (generateResume sampleEnv "bad.json" "template.html" "resume.pdf" sampleWorld).1,
      ∃ cause stage, ev.err = some cause ∧ stageOfSite ev.site = some stage ∧
        Errorf "failed to parse JSON" (.external "unexpected end of JSON input") =
          wrapAll stage.context cause :=
  ⟨rfl,
    (generateResume_error_wrapping sampleEnv "bad.json" "template.html" "resume.pdf"
      sampleWorld _ rfl).1.elim
      (fun ev h => ⟨ev, h.1, h.2.elim (fun cause hc => hc.elim (fun stage hs =>
        ⟨cause, stage, hs.1, hs.2.1, hs.2.2.2.1⟩))⟩)⟩

/-- C5 (counterexample): on a disk that fills up during the write, the run fails
and `resume.pdf`, which held a complete PDF, holds the first three bytes of the
new one; and when the temporary file gets the name of the output path, the HTML
is written to the output path before the browser runs, the run succeeds, and no
file is left at the output path. -/
theorem htmlToPDF_partial_pdf_left :
    (rerunWorld.fs.files "resume.pdf" = some "OLD-COMPLETE-PDF" ∧
      (htmlToPDF diskFullEnv "<h1>Resume</h1>" "resume.pdf" rerunWorld).2 =
        some (Errorf "failed to write PDF file" (.external "no space left on device")) ∧
      (htmlToPDF diskFullEnv "<h1>Resume</h1>" "resume.pdf" rerunWorld).1.fs.files "resume.pdf" =
        some "%PD") ∧
    ((⟨182, .fileWrite "/tmp/resume-123456.html" "<h1>Resume</h1>", none⟩ : Event) ∈
        newEvents sampleWorld
          (htmlToPDF sampleEnv "<h1>Resume</h1>" "/tmp/resume-123456.html" sampleWorld).1 ∧
      (htmlToPDF sampleEnv "<h1>Resume</h1>" "/tmp/resume-123456.html" sampleWorld).2 = none ∧
      (htmlToPDF sampleEnv "<h1>Resume</h1>" "/tmp/resume-123456.html" sampleWorld).1.fs.files
        "/tmp/resume-123456.html" = none) := by
  refine ⟨⟨rfl, rfl, by decide⟩, ⟨by decide, rfl, rfl⟩⟩

/-- The sample run: on the sample world every step succeeds, the PDF buffer is
in `resume.pdf` afterwards and the temporary file is gone. -/
theorem sample_run :
    (generateResume sampleEnv "resume.json" "template.html" "resume.pdf" sampleWorld).2 = none ∧
    (generateResume sampleEnv "resume.json" "template.html" "resume.pdf"
      sampleWorld).1.fs.files "resume.pdf" = some "%PDF-1.4" ∧
    (generateResume sampleEnv "resume.json" "template.html" "resume.pdf"
      sampleWorld).1.fs.files "/tmp/resume-123456.html" = none ∧
    (main sampleEnv "gen-resume" ["-json", "resume.json"] sampleWorld).2 = 0 :=
  ⟨rfl, rfl, rfl, rfl⟩

end GenResume
